import Mathlib

/-!
# Verification of the flare.rs collision/intersection engine

Shallow embedding, over the rationals, of the narrow-phase intersection math,
the broad-phase terrain/room searches, and the collision dispatch table of
`d3-core/src/game/physics/{intersection.rs, collide.rs}` together with the
vector/matrix kernel of `d3-core/src/math/{vector.rs, matrix.rs, mod.rs}`.

`f32` values are modelled as rational numbers; `f32::sqrt` is modelled by
`Rat.sqrt` (exact on perfect squares, which is all that the theorems below
evaluate it on).  Panics (failed `assert!`s, `unwrap()` on `None`, and
out-of-bounds indexing) are modelled with `Except`/`Option` results.
Two source-level quirks are embedded faithfully because several functions
observably depend on them:

* `Vector::ZERO` is `(0.0, 0.0, 0.032)` in `vector.rs`, not the zero vector;
* `Vector::normalize` computes `vector.div_scalar(mag)` but discards the
  result, so the vector is left unchanged whenever its magnitude is positive.
-/

namespace Flare

/-- 3-component vector of rationals modelling the engine's `Vector` of `f32`s. -/
structure Vec3 where
  x : ℚ
  y : ℚ
  z : ℚ
deriving DecidableEq, Repr

instance : Add Vec3 := ⟨fun a b => ⟨a.x + b.x, a.y + b.y, a.z + b.z⟩⟩

instance : Sub Vec3 := ⟨fun a b => ⟨a.x - b.x, a.y - b.y, a.z - b.z⟩⟩

instance : Neg Vec3 := ⟨fun a => ⟨a.x * (-1), a.y * (-1), a.z * (-1)⟩⟩

/-- `DotProduct::dot` for `Vector`. -/
def Vec3.dot (a b : Vec3) : ℚ := a.x * b.x + a.y * b.y + a.z * b.z

/-- `ScalarMul::mul_scalar` for `Vector`. -/
def Vec3.smul (a : Vec3) (s : ℚ) : Vec3 := ⟨a.x * s, a.y * s, a.z * s⟩

/-- `CrossProduct::cross` for `Vector`. -/
def Vec3.cross (a b : Vec3) : Vec3 :=
  ⟨a.y * b.z - a.z * b.y, a.z * b.x - a.x * b.z, a.x * b.y - a.y * b.x⟩

/-- `Vector::ZERO` from `vector.rs`.  The z component really is `0.032` there. -/
def vecZero : Vec3 := ⟨0, 0, 32 / 1000⟩

/-- `Vector::as_slice` indexing: component 0 is x, 1 is y, anything else z
(the source only ever indexes 0, 1, 2). -/
def Vec3.nth (v : Vec3) : Nat → ℚ
  | 0 => v.x
  | 1 => v.y
  | _ => v.z

/-- Fuel-bounded linear search used by `natSqrt`: the largest `k ≤ acc + fuel`
with `k * k ≤ n`, starting from an `acc` already satisfying the bound. -/
def natSqrtGo (n : Nat) : Nat → Nat → Nat
  | 0, acc => acc
  | fuel + 1, acc => if (acc + 1) * (acc + 1) ≤ n then natSqrtGo n fuel (acc + 1) else acc

/-- Integer square root (floor), by bounded search so that it reduces in the
kernel. -/
def natSqrt (n : Nat) : Nat := natSqrtGo n n 0

/-- `f32::sqrt` modelled over the rationals: integer square roots of numerator
and denominator.  Exact whenever the argument is a perfect square of a
rational, which is all the theorems below evaluate it on. -/
def sqrtQ (q : ℚ) : ℚ := (natSqrt q.num.toNat : ℚ) / (natSqrt q.den : ℚ)

/-- `Vector::magnitude`. -/
def Vec3.magnitude (v : Vec3) : ℚ := sqrtQ (Vec3.dot v v)

/-- `Vector::normalize(vector) -> f32`, returned as (vector after the call,
returned magnitude).  When the magnitude is positive the source computes
`vector.div_scalar(mag)` but discards the result, leaving the vector
unchanged; when it is not, the components are set to
`(1.0, Vector::ZERO.y, Vector::ZERO.z)` and `0.0` is returned. -/
def normalizeMut (v : Vec3) : Vec3 × ℚ :=
  let mag := Vec3.magnitude v
  if mag > 0 then (v, mag) else (⟨1, vecZero.y, vecZero.z⟩, 0)

/-- `Vector::distance`. -/
def Vec3.distance (a b : Vec3) : ℚ := Vec3.magnitude (a - b)

/-! ## `find_plane_line_intersection` (intersection.rs lines 676-746)

`Except.error ()` models a failed `assert!` (a panic); `Except.ok none`
models returning `false`; `Except.ok (some (intp, colp))` models returning
`true` with the two out-parameters. -/

/-- `find_plane_line_intersection(intp, colp, plane_point, plane_normal, p0, p1, rad)`. -/
def findPlaneLineIntersection (plane_point plane_normal p0 p1 : Vec3) (rad : ℚ) :
    Except Unit (Option (Vec3 × Vec3)) :=
  if ¬ rad ≥ 0 then .error () else
  let line_vec := p1 - p0
  let proj_dist_line := Vec3.dot plane_normal line_vec
  if proj_dist_line ≥ 0 then .ok none
  else
    let point_plane_vec := plane_point - p0
    let proj_dist_point_plane0 := Vec3.dot plane_normal point_plane_vec
    if proj_dist_point_plane0 > 0 then .ok none
    else
      let proj_dist_point_plane := proj_dist_point_plane0 + rad
      if proj_dist_point_plane > 0 ∧ proj_dist_line < 0 then
        let intp := p0
        let colp := intp + Vec3.smul plane_normal (-rad + proj_dist_point_plane)
        .ok (some (intp, colp))
      else if proj_dist_point_plane ≤ proj_dist_line then .ok none
      else if |proj_dist_line| ≤ 1 / 100000000000 then
        let plane_dist := Vec3.dot (p1 - plane_point) plane_normal
        if plane_dist ≥ rad then .ok none
        else
          let intp := p1 + Vec3.smul plane_normal (rad - plane_dist)
          if ¬ Vec3.dot (intp - plane_point) plane_normal ≥ -(1 / 100) then .error ()
          else
            let colp := intp + Vec3.smul plane_normal (-rad)
            .ok (some (intp, colp))
      else
        let intp := p0 + Vec3.smul line_vec (proj_dist_point_plane / proj_dist_line)
        let colp := intp + Vec3.smul plane_normal (-rad)
        .ok (some (intp, colp))

/-! ## `check_point_to_face` (intersection.rs lines 824-896) -/

/-- `IJ_TABLE` from intersection.rs. -/
def ijTable : List (List Nat) := [[2, 1], [0, 2], [1, 0]]

/-- `check_point_to_face(colp, face_normal, nv, vector_list) -> u32`: the
returned edge mask.  Note that the source initialises `check_vec` to zero and
only ever subtracts `v0`'s components from it: the coordinates of `colp` are
never mixed in (the `colp_arr` slice is built but unused), which this
embedding reproduces. -/
def checkPointToFace (colp face_normal : Vec3) (nv : Nat) (vector_list : List Vec3) : Nat :=
  let biggest : Nat :=
    if |face_normal.x| > |face_normal.y| then
      (if |face_normal.x| > |face_normal.z| then 0 else 2)
    else if |face_normal.y| > |face_normal.z| then 1
    else 2
  let i : Nat :=
    if face_normal.nth biggest > 0 then (ijTable.getD biggest []).getD 0 0
    else (ijTable.getD biggest []).getD 1 0
  let j : Nat :=
    if face_normal.nth biggest > 0 then (ijTable.getD biggest []).getD 1 0
    else (ijTable.getD biggest []).getD 0 0
  (List.range nv).foldl
    (fun edgemask edge =>
      let v0 := vector_list.getD edge ⟨0, 0, 0⟩
      let v1 := vector_list.getD ((edge + 1) % nv) ⟨0, 0, 0⟩
      let edge_vec_x := v1.nth i - v0.nth i
      let edge_vec_y := v1.nth j - v0.nth j
      let check_vec_x := 0 - v0.nth i
      let check_vec_y := 0 - v0.nth j
      let d := check_vec_x * edge_vec_y - check_vec_y * edge_vec_x
      if d < 0 then edgemask ||| (1 <<< edge) else edgemask)
    0

/-! ## `check_vector_to_sphere` (intersection.rs lines 904-981) -/

/-- `check_vector_to_sphere(intp, col_dist, p0, p1, sphere_pos, sphere_rad,
correcting, init_collisions)`: `none` models returning `false`, `some (intp,
col_dist)` returning `true`.  The `init_collisions` parameter is accepted but,
as in the source, never read. -/
def checkVectorToSphere (p0 p1 sphere_pos : Vec3) (sphere_rad : ℚ)
    (correcting init_collisions : Bool) : Option (Vec3 × ℚ) :=
  let line_vec := p1 - p0
  let point_to_center_vec := sphere_pos - p0
  if Vec3.dot line_vec point_to_center_vec ≤ 0 then none
  else
    let nl := normalizeMut line_vec
    let normalized_line_vec := nl.1
    let mag_line := nl.2
    let closet_point_dist := Vec3.dot normalized_line_vec point_to_center_vec
    if closet_point_dist < 0 ∨ closet_point_dist ≥ mag_line + sphere_rad then none
    else if Vec3.dot point_to_center_vec point_to_center_vec < sphere_rad ^ 2 then
      if correcting then
        let n_ptc := (normalizeMut point_to_center_vec).1
        let intp := p0 -
          Vec3.smul n_ptc
            (sphere_rad -
              sqrtQ (sphere_rad ^ 2 - Vec3.dot point_to_center_vec point_to_center_vec))
        some (intp, 0)
      else none
    else
      let closet_point := p0 + Vec3.smul normalized_line_vec closet_point_dist
      let closest_mag_to_center := Vec3.distance closet_point sphere_pos
      if closest_mag_to_center ≥ sphere_rad then none
      else
        let shorten := sphere_rad ^ 2 - closest_mag_to_center ^ 2
        let col_dist := closet_point_dist - shorten
        if col_dist > mag_line then none
        else some (p0 + Vec3.smul normalized_line_vec col_dist, col_dist)

/-! ## `is_point_in_cylinder` (intersection.rs lines 983-1013) -/

/-- `is_point_in_cylinder(normal, cylinder_point, edir, elen, rad, point, mdir,
collide)`: `none` models returning `false` (out-parameters untouched),
`some (normal, collide)` models returning `true`. -/
def isPointInCylinder (cylinder_point edir : Vec3) (elen rad : ℚ) (point mdir : Vec3) :
    Option (Vec3 × Bool) :=
  let plen := Vec3.dot (point - cylinder_point) edir
  if plen < 0 ∨ plen > elen then none
  else
    let newp := cylinder_point + Vec3.smul edir plen
    let nm := normalizeMut (point - newp)
    if nm.2 ≥ rad then none
    else if Vec3.dot nm.1 mdir ≥ 0 then some (nm.1, false)
    else some (nm.1, true)

/-! ## The 3x3 matrix kernel (matrix.rs / mod.rs), as used by
`check_vector_to_cylinder` -/

/-- The engine's `Matrix`: three row vectors. -/
structure Mat3 where
  right : Vec3
  up : Vec3
  forward : Vec3
deriving DecidableEq, Repr

/-- `Matrix::ZERO`. -/
def matZero : Mat3 := ⟨⟨0, 0, 0⟩, ⟨0, 0, 0⟩, ⟨0, 0, 0⟩⟩

/-- `Vector * Matrix` from math/mod.rs: dots with the right/up/forward rows. -/
def vecMulMat (v : Vec3) (m : Mat3) : Vec3 :=
  ⟨Vec3.dot m.right v, Vec3.dot m.up v, Vec3.dot m.forward v⟩

/-- `Matrix::vector_to_matrix_forward_only(xvec, yvec, zvec)`: returns the new
(xvec, yvec); `zvec` is read but not written. -/
def vectorToMatrixForwardOnly (zvec : Vec3) : Vec3 × Vec3 :=
  if zvec.x = 0 ∧ zvec.z = 0 then
    (⟨1, 0, 0⟩, ⟨0, 0, if zvec.y < 0 then 1 else -1⟩)
  else
    let xv0 : Vec3 := ⟨zvec.z, 0, -zvec.x⟩
    let xvec := (normalizeMut xv0).1
    (xvec, Vec3.cross zvec xvec)

/-- `Matrix::vector_to_matrix(matrix, f, u, r)`: `Except.error ()` models a
failed `assert!`.  The matrix passed in by `from_vector` is always
`Matrix::ZERO`, so only the option arguments matter. -/
def vectorToMatrix (f u r : Option Vec3) : Except Unit Mat3 :=
  match f with
  | none => .error ()
  | some fv =>
    let nz := normalizeMut fv
    let zvec := nz.1
    if ¬ nz.2 ≠ 0 then .error ()
    else
      match u with
      | none =>
        match r with
        | none =>
          let xy := vectorToMatrixForwardOnly zvec
          .ok ⟨xy.1, xy.2, zvec⟩
        | some rv =>
          let yvec0 := Vec3.cross zvec rv
          let nx := normalizeMut rv
          if nx.2 = 0 then
            let xy := vectorToMatrixForwardOnly zvec
            .ok ⟨xy.1, xy.2, zvec⟩
          else
            .ok ⟨Vec3.cross yvec0 zvec, yvec0, zvec⟩
      | some uv =>
        let xvec0 := Vec3.cross uv zvec
        let ny := normalizeMut uv
        if ny.2 = 0 then
          let xy := vectorToMatrixForwardOnly zvec
          .ok ⟨xy.1, xy.2, zvec⟩
        else
          .ok ⟨xvec0, Vec3.cross zvec xvec0, zvec⟩

/-- `Matrix::from_vector(forward, up, right)`.  With `forward` present the
source asserts `up.is_some() && right.is_some()` before delegating, so the
call `from_vector(Some(edgevec), None, None)` made by
`check_vector_to_cylinder` always fails that assertion. -/
def fromVector (forward up right : Option Vec3) : Except Unit Mat3 :=
  match forward with
  | none =>
    match up with
    | some _ =>
      match vectorToMatrix up none right with
      | .error e => .error e
      | .ok t => .ok ⟨t.right, t.forward, -t.up⟩
    | none =>
      match vectorToMatrix right none none with
      | .error e => .error e
      | .ok t => .ok ⟨t.forward, t.up, -t.right⟩
  | some _ =>
    if ¬ (up.isSome ∧ right.isSome) then .error ()
    else vectorToMatrix forward up right

/-! ## `check_vector_to_cylinder` (intersection.rs lines 1016-1182) -/

/-- The out-parameters of `check_vector_to_cylinder`: collision point, line
intersection point, travel distance, wall normal. -/
structure CylHit where
  colp : Vec3
  intp : Vec3
  col_dist : ℚ
  wall_norm : Vec3
deriving DecidableEq, Repr

/-- One candidate root of the swept test: travel distance, line point
(`ivertex`), edge point (`inte`). -/
def CylCand := ℚ × Vec3 × Vec3

/-- Validation of the two circle-intersection roots (`for i in 0..2` in the
source): keeps a root with `t` in [0,1] whose projection onto the edge also
lands within the edge's extent. -/
def cylRoot (p0 mvec3d : Vec3) (vector_len3d : ℚ) (ep0 edgevec : Vec3) (edge_len t : ℚ) :
    Option CylCand :=
  if t ≥ 0 ∧ t ≤ 1 then
    let ivertex := p0 + Vec3.smul mvec3d (vector_len3d * t)
    let t_edge := Vec3.dot (ivertex - ep0) edgevec / edge_len
    if t_edge ≥ 0 ∧ t_edge ≤ 1 then
      some (vector_len3d * t, ivertex, ep0 + Vec3.smul edgevec (Vec3.dot (ivertex - ep0) edgevec))
    else none
  else none

/-- The two end-cap sphere tests of `check_vector_to_cylinder` (indices 2 and
3).  Both compute `d_vec` from `ep1`, as the source does for each. -/
def cylCap (p0 p1 : Vec3) (rad : ℚ) (cap ep1 : Vec3) (vector_len3d : ℚ) : Option CylCand :=
  match checkVectorToSphere p0 p1 cap rad false true with
  | none => none
  | some (iv, cd) =>
    let d_vec := (normalizeMut (ep1 - iv)).1
    some (cd, iv, iv + Vec3.smul d_vec rad)

/-- The best-candidate scan (`for i in 0..4` keeping the strictly smaller
`cole_dist`, first index winning ties). -/
def cylBest (cands : List (Option CylCand)) : Option CylCand :=
  cands.foldl
    (fun acc c =>
      match c with
      | none => acc
      | some cand =>
        match acc with
        | none => some cand
        | some best => if cand.1 < best.1 then some cand else acc)
    none

/-- `check_vector_to_cylinder(colp, intp, col_dist, wall_norm, p0, p1, rad,
ep0, ep1)`: `Except.error ()` models a panic (the `Matrix::from_vector`
assertion, or `best_hit_index.unwrap()`), `.ok none` returning `false`,
`.ok (some hit)` returning `true`.

The source tests `is_point_in_cylinder` and runs the swept computation when it
returns **true** (start point already inside the cylinder); when it returns
false, `init_collide` still holds its initial `false` (the out-parameter is
written only on the `true` path), so the immediate-hit branch below is
unreachable and the function returns `false`. -/
def checkVectorToCylinder (p0 p1 : Vec3) (rad : ℚ) (ep0 ep1 : Vec3) :
    Except Unit (Option CylHit) :=
  let nm := normalizeMut (p1 - p0)
  let mvec3d := nm.1
  let vector_len3d := nm.2
  let ne := normalizeMut (ep1 - ep0)
  let edgevec := ne.1
  let edge_len := ne.2
  match isPointInCylinder ep0 edgevec edge_len rad p0 mvec3d with
  | some _ =>
    match fromVector (some edgevec) none none with
    | .error e => .error e
    | .ok edge_orient =>
      let po0' := vecMulMat (p0 - ep0) edge_orient
      let po1' := vecMulMat (p1 - ep0) edge_orient
      let po0 : Vec3 := ⟨po0'.x, po0'.y, 0⟩
      let po1 : Vec3 := ⟨po1'.x, po1'.y, 0⟩
      let nv := normalizeMut (po1 - po0)
      let mvec := nv.1
      let vector_len := nv.2
      let dist := -(Vec3.dot mvec po0)
      let closet_point := po0 + Vec3.smul mvec dist
      let dist_from_origin := Vec3.magnitude closet_point
      if dist_from_origin ≥ rad then .ok none
      else
        let dist_to_intersection := sqrtQ (rad ^ 2 - dist_from_origin ^ 2)
        let c0 := cylRoot p0 mvec3d vector_len3d ep0 edgevec edge_len
          ((dist + dist_to_intersection) / vector_len)
        let c1 := cylRoot p0 mvec3d vector_len3d ep0 edgevec edge_len
          ((dist - dist_to_intersection) / vector_len)
        let c2 := cylCap p0 p1 rad ep0 ep1 vector_len3d
        let c3 := cylCap p0 p1 rad ep1 ep1 vector_len3d
        if c0.isNone ∧ c1.isNone ∧ c2.isNone ∧ c3.isNone then .ok none
        else
          match cylBest [c0, c1, c2, c3] with
          | none => .error ()
          | some best =>
            let wn := (normalizeMut (best.2.1 - best.2.2)).1
            .ok (some ⟨best.2.2, best.2.1, best.1, wn⟩)
  | none =>
    let init_collide := false
    let init_normal := vecZero
    if init_collide then
      .ok (some ⟨p0 - Vec3.smul init_normal rad, p0, 0, init_normal⟩)
    else .ok none

/-! ## `process_cells` (intersection.rs lines 1448-1488) and
`quick_dist_cell_list` (lines 480-518)

The visitor of `process_cells` is an `FnMut` closure; it is modelled as a
state-passing function `σ → Nat → σ × Bool`, and the embedding additionally
returns the exact sequence of cell indices the visitor was invoked on. -/

def TERRAIN_WIDTH : Nat := 256

def TERRAIN_DEPTH : Nat := 256

def TERRAIN_SIZE : ℚ := 16

/-- The inner `for _x in x_start..=x_end` loop of `process_cells`: visits
`cols` consecutive nodes starting at `node`; a visitor returning false
`break`s out (the node counter is left at the cell that said stop).  Returns
(final state, node counter after the loop, nodes visited in order). -/
def processRow {σ : Type} (cond : σ → Nat → σ × Bool) :
    Nat → Nat → σ → σ × Nat × List Nat
  | 0, node, s => (s, node, [])
  | cols + 1, node, s =>
    let r := cond s node
    if r.2 then
      let rest := processRow cond cols (node + 1) r.1
      (rest.1, rest.2.1, node :: rest.2.2)
    else (r.1, node, [node])

/-- The outer `for _y in y_start..=y_end` loop: after each row the node
counter advances by `next_y_delta` (even when the row stopped early, which is
how the source continues into later rows at shifted indices after a visitor
says stop). -/
def processRows {σ : Type} (cond : σ → Nat → σ × Bool) :
    Nat → Nat → Nat → Nat → σ → σ × List Nat
  | 0, _, _, _, s => (s, [])
  | rows + 1, cols, delta, node, s =>
    let r := processRow cond cols node s
    let rest := processRows cond rows cols delta (r.2.1 + delta) r.1
    (rest.1, r.2.2 ++ rest.2)

/-- `process_cells(initial_cell, position, rad, terrain, condition)`.  The
`position` argument is accepted and ignored, as in the source.  `(rad /
TERRAIN_SIZE) as usize` is the saturating float-to-usize cast (floor, and 0
for negative input).  Returns (final visitor state, cells the visitor was
invoked on, in order). -/
def processCells {σ : Type} (initial_cell : Nat) (position : Vec3) (rad : ℚ)
    (cond : σ → Nat → σ × Bool) (s : σ) : σ × List Nat :=
  let check_x := (⌊rad / TERRAIN_SIZE⌋).toNat + 1
  let check_y := (⌊rad / TERRAIN_SIZE⌋).toNat + 1
  let remainder := initial_cell % TERRAIN_WIDTH
  let quotient := initial_cell / TERRAIN_WIDTH
  let x_start := remainder - check_x
  let x_end := min (remainder + check_x) (TERRAIN_WIDTH - 1)
  let y_start := quotient - check_y
  let y_end := min (quotient + check_y) (TERRAIN_DEPTH - 1)
  let node0 := TERRAIN_WIDTH * y_start + x_start
  let next_y_delta := TERRAIN_WIDTH - (x_end - x_start) - 1
  processRows cond (y_end + 1 - y_start) (x_end + 1 - x_start) next_y_delta node0 s

/-- The clamped window of cells in row-major order: for comparison with the
trace `process_cells` produces. -/
def windowList (x_start x_end y_start y_end : Nat) : List Nat :=
  (List.range (y_end + 1 - y_start)).flatMap fun dy =>
    (List.range (x_end + 1 - x_start)).map fun dx =>
      TERRAIN_WIDTH * (y_start + dy) + (x_start + dx)

/-- The conditional of `quick_dist_cell_list`'s closure, with the
short-circuit `||` made explicit: returns the terrain-segment indices read, in
order, and the truth value.  `heights c` models `terrain.segments[c].y`; in
Rust that read panics when `c` is outside the `256 * 256`-element segments
vector, which is exactly what theorem `c9_code_evaluation` exhibits. -/
def cellCheckReads (heights : Nat → ℚ) (threshold : ℚ) (c : Nat) : List Nat × Bool :=
  if heights c ≥ threshold then ([c], true)
  else if heights (c + TERRAIN_WIDTH + 1) ≥ threshold then
    ([c, c + TERRAIN_WIDTH + 1], true)
  else if heights (c + 1) ≥ threshold then
    ([c, c + TERRAIN_WIDTH + 1, c + 1], true)
  else if heights (c + TERRAIN_WIDTH) ≥ threshold then
    ([c, c + TERRAIN_WIDTH + 1, c + 1, c + TERRAIN_WIDTH], true)
  else ([c, c + TERRAIN_WIDTH + 1, c + 1, c + TERRAIN_WIDTH], false)

/-- `quick_dist_cell_list(initial_cell, position, rad, quick_cell_list,
terrain)` with a list of capacity `capacity`, instrumented with the list of
every terrain-segment index it reads: returns ((reads, collected cells),
cells visited).  The closure appends a cell whose conditional holds and
reports stop once the output is full, as in the source. -/
def quickDistCellList (initial_cell : Nat) (position : Vec3) (rad : ℚ)
    (capacity : Nat) (heights : Nat → ℚ) : (List Nat × List Nat) × List Nat :=
  processCells initial_cell position rad
    (fun st c =>
      let r := cellCheckReads heights (position.y - rad) c
      let reads := st.1 ++ r.1
      if r.2 then
        let cells := st.2 ++ [c]
        if cells.length ≥ capacity then ((reads, cells), false)
        else ((reads, cells), true)
      else ((reads, st.2), true))
    (([] : List Nat), ([] : List Nat))

/-! ## The collision dispatch table (collide.rs lines 24-179, object.rs) -/

/-- `ObjectClass` from object.rs (26 variants, discriminants 0-25). -/
inductive ObjectClass
  | Wall
  | Fireball
  | Robot
  | Shard
  | Player
  | Weapon
  | Viewer
  | Powerup
  | Debris
  | Camera
  | Shockwave
  | Clutter
  | Ghost
  | Light
  | Coop
  | Marker
  | Building
  | Door
  | Room
  | Particle
  | Splinter
  | Dummy
  | Observer
  | DebugLine
  | SoundSource
  | Waypoint
deriving DecidableEq, Repr, Fintype

/-- `class as usize`: the enum discriminant. -/
def ObjectClass.toNat : ObjectClass → Nat
  | .Wall => 0
  | .Fireball => 1
  | .Robot => 2
  | .Shard => 3
  | .Player => 4
  | .Weapon => 5
  | .Viewer => 6
  | .Powerup => 7
  | .Debris => 8
  | .Camera => 9
  | .Shockwave => 10
  | .Clutter => 11
  | .Ghost => 12
  | .Light => 13
  | .Coop => 14
  | .Marker => 15
  | .Building => 16
  | .Door => 17
  | .Room => 18
  | .Particle => 19
  | .Splinter => 20
  | .Dummy => 21
  | .Observer => 22
  | .DebugLine => 23
  | .SoundSource => 24
  | .Waypoint => 25

/-- `impl From<usize> for ObjectClass`.  The source aborts outside 0..=25; the
only call site (the sphere-room loop of the `Default` impl) passes 0..=25, so
the fallback arm here is never exercised. -/
def ObjectClass.fromNat : Nat → ObjectClass
  | 0 => .Wall
  | 1 => .Fireball
  | 2 => .Robot
  | 3 => .Shard
  | 4 => .Player
  | 5 => .Weapon
  | 6 => .Viewer
  | 7 => .Powerup
  | 8 => .Debris
  | 9 => .Camera
  | 10 => .Shockwave
  | 11 => .Clutter
  | 12 => .Ghost
  | 13 => .Light
  | 14 => .Coop
  | 15 => .Marker
  | 16 => .Building
  | 17 => .Door
  | 18 => .Room
  | 19 => .Particle
  | 20 => .Splinter
  | 21 => .Dummy
  | 22 => .Observer
  | 23 => .DebugLine
  | 24 => .SoundSource
  | _ => .Waypoint

/-- `CollisionResultType` from collide.rs. -/
inductive CollisionResultType
  | Nothing
  | CheckSphereSphere
  | CheckSpherePoly
  | CheckPolySphere
  | CheckBBoxPoly
  | CheckPolyBBox
  | CheckBBoxBBox
  | CheckBBoxSphere
  | CheckSphereBBox
  | CheckSphereRoom
  | CheckBBoxRoom
deriving DecidableEq, Repr, Fintype

/-- `CollisionMap`: `result_map` is the square table indexed by class
discriminants (all writes are in range, so a total function over `Nat` models
the array), `ray_result` the per-class ray-default table. -/
structure CollisionMapS where
  result_map : Nat → Nat → CollisionResultType
  ray_result : Nat → CollisionResultType

/-- One array store `result_map[a][b] = v`. -/
def setResult (m : CollisionMapS) (a b : ObjectClass) (v : CollisionResultType) :
    CollisionMapS :=
  { m with
    result_map := fun i j =>
      if i = a.toNat ∧ j = b.toNat then v else m.result_map i j }

/-- `set_ray_result`. -/
def setRayResult (m : CollisionMapS) (c : ObjectClass) (v : CollisionResultType) :
    CollisionMapS :=
  { m with ray_result := fun i => if i = c.toNat then v else m.ray_result i }

/-- `enable_collision_sphere_sphere`. -/
def enableCollisionSphereSphere (m : CollisionMapS) (t1 t2 : ObjectClass) : CollisionMapS :=
  setResult (setResult m t1 t2 .CheckSphereSphere) t2 t1 .CheckSphereSphere

/-- `enable_collision_sphere_poly`. -/
def enableCollisionSpherePoly (m : CollisionMapS) (t1 t2 : ObjectClass) : CollisionMapS :=
  setResult (setResult m t1 t2 .CheckSpherePoly) t2 t1 .CheckPolySphere

/-- `enable_collision_poly_sphere`. -/
def enableCollisionPolySphere (m : CollisionMapS) (t1 t2 : ObjectClass) : CollisionMapS :=
  setResult (setResult m t1 t2 .CheckPolySphere) t2 t1 .CheckSpherePoly

/-- `enable_collision_bbox_poly`. -/
def enableCollisionBBoxPoly (m : CollisionMapS) (t1 t2 : ObjectClass) : CollisionMapS :=
  setResult (setResult m t1 t2 .CheckBBoxPoly) t2 t1 .CheckPolyBBox

/-- `enable_collision_poly_bbox`. -/
def enableCollisionPolyBBox (m : CollisionMapS) (t1 t2 : ObjectClass) : CollisionMapS :=
  setResult (setResult m t1 t2 .CheckPolyBBox) t2 t1 .CheckBBoxPoly

/-- `enable_collision_bbox_bbox`. -/
def enableCollisionBBoxBBox (m : CollisionMapS) (t1 t2 : ObjectClass) : CollisionMapS :=
  setResult (setResult m t1 t2 .CheckBBoxBBox) t2 t1 .CheckBBoxBBox

/-- `enable_collision_bbox_sphere`. -/
def enableCollisionBBoxSphere (m : CollisionMapS) (t1 t2 : ObjectClass) : CollisionMapS :=
  setResult (setResult m t1 t2 .CheckBBoxSphere) t2 t1 .CheckSphereBBox

/-- `enable_collision_sphere_bbox`. -/
def enableCollisionSphereBBox (m : CollisionMapS) (t1 t2 : ObjectClass) : CollisionMapS :=
  setResult (setResult m t1 t2 .CheckSphereBBox) t2 t1 .CheckBBoxSphere

/-- `enable_collision_sphere_room`. -/
def enableCollisionSphereRoom (m : CollisionMapS) (t1 t2 : ObjectClass) : CollisionMapS :=
  setResult (setResult m t1 t2 .CheckSphereRoom) t2 t1 .CheckSphereRoom

/-- `enable_collision_bbox_room`. -/
def enableCollisionBBoxRoom (m : CollisionMapS) (t1 t2 : ObjectClass) : CollisionMapS :=
  setResult (setResult m t1 t2 .CheckBBoxRoom) t2 t1 .CheckBBoxRoom

/-- `disable_collision`. -/
def disableCollision (m : CollisionMapS) (t1 t2 : ObjectClass) : CollisionMapS :=
  setResult (setResult m t1 t2 .Nothing) t2 t1 .Nothing

/-- `impl Default for CollisionMap` (collide.rs lines 116-178), call for
call. -/
def collisionMapDefault : CollisionMapS :=
  let s := CollisionMapS.mk (fun _ _ => .Nothing) (fun _ => .Nothing)
  let s := setRayResult s .Robot .CheckSpherePoly
  let s := setRayResult s .Player .CheckSpherePoly
  let s := setRayResult s .Weapon .CheckSpherePoly
  let s := setRayResult s .Powerup .CheckSpherePoly
  let s := setRayResult s .Clutter .CheckSpherePoly
  let s := setRayResult s .Building .CheckSpherePoly
  let s := setRayResult s .Door .CheckSpherePoly
  let s := setRayResult s .Room .CheckSpherePoly
  let s := (List.range 26).foldl
    (fun m i => enableCollisionSphereRoom m (ObjectClass.fromNat i) .Room) s
  let s := enableCollisionPolySphere s .Wall .Robot
  let s := enableCollisionPolySphere s .Wall .Weapon
  let s := enableCollisionPolySphere s .Wall .Player
  let s := enableCollisionSphereSphere s .Robot .Robot
  let s := enableCollisionPolySphere s .Player .Fireball
  let s := enableCollisionSphereSphere s .Player .Player
  let s := enableCollisionSphereSphere s .Player .Marker
  let s := enableCollisionSphereSphere s .Marker .Player
  let s := enableCollisionSphereSphere s .Weapon .Weapon
  let s := enableCollisionPolySphere s .Robot .Player
  let s := enableCollisionPolySphere s .Robot .Weapon
  let s := enableCollisionPolySphere s .Player .Weapon
  let s := enableCollisionSphereSphere s .Player .Powerup
  let s := enableCollisionSphereSphere s .Powerup .Wall
  let s := enableCollisionSpherePoly s .Weapon .Clutter
  let s := enableCollisionSpherePoly s .Player .Clutter
  let s := enableCollisionSphereSphere s .Clutter .Clutter
  let s := enableCollisionSpherePoly s .Robot .Clutter
  let s := enableCollisionSpherePoly s .Player .Building
  let s := enableCollisionSpherePoly s .Robot .Building
  let s := enableCollisionSpherePoly s .Weapon .Building
  let s := enableCollisionSpherePoly s .Clutter .Building
  let s := enableCollisionSpherePoly s .Clutter .Door
  let s := enableCollisionSpherePoly s .Building .Door
  let s := enableCollisionSphereRoom s .Player .Room
  let s := enableCollisionSphereRoom s .Robot .Room
  let s := enableCollisionSphereRoom s .Weapon .Room
  let s := enableCollisionSphereRoom s .Viewer .Room
  let s := enableCollisionSpherePoly s .Player .Door
  let s := enableCollisionSpherePoly s .Robot .Door
  let s := enableCollisionSpherePoly s .Weapon .Door
  let s := disableCollision s .Powerup .Powerup
  s

/-- The mirror operation the claim describes: swaps the sphere/poly,
bbox/poly and bbox/sphere directional pairs and fixes the symmetric kinds. -/
def mirrorResult : CollisionResultType → CollisionResultType
  | .CheckSpherePoly => .CheckPolySphere
  | .CheckPolySphere => .CheckSpherePoly
  | .CheckBBoxPoly => .CheckPolyBBox
  | .CheckPolyBBox => .CheckBBoxPoly
  | .CheckBBoxSphere => .CheckSphereBBox
  | .CheckSphereBBox => .CheckBBoxSphere
  | x => x

/-- Mirror symmetry of a collision table over the valid class range. -/
def MirrorSymmetric (m : CollisionMapS) : Prop :=
  ∀ i, i < 26 → ∀ j, j < 26 → m.result_map i j = mirrorResult (m.result_map j i)

/-! ## `quick_dist_facelist` (intersection.rs lines 328-477)

Rooms, faces, bounding-box regions and portals are embedded arena-style:
`SharedMutRef<Room>` references become indices into the master room list (the
portal's `connected_room`), mirroring how the visited set is keyed by
`Room::id`.  `Except.error ()`-free totality is obtained with `Option`: a
`none` result models the `room_list.get(head).unwrap()` panic. -/

/-- An axis-aligned range (`bounding_box.range` and region ranges). -/
structure RangeQ where
  min : Vec3
  max : Vec3
deriving DecidableEq, Repr

/-- One entry of `bounding_box.regions`: octant sector mask, range, and the
face indices of the region. -/
structure BBRegion where
  sector : Nat
  range : RangeQ
  faces : List Nat
deriving DecidableEq, Repr

/-- The portion of `Face` that `quick_dist_facelist` touches: its AABB, its
optional portal (with the portal's optional connected room, as an index into
the master room list), and the transient `TOUCHED` flag. -/
structure FaceS where
  min_xyz : Vec3
  max_xyz : Vec3
  portal : Option (Option Nat)
  touched : Bool
deriving DecidableEq, Repr

/-- The portion of `Room` that `quick_dist_facelist` touches. -/
structure RoomS where
  id : Nat
  bb_range : RangeQ
  regions : List BBRegion
  faces : List FaceS
deriving DecidableEq, Repr

/-- A default used where Rust indexing would panic; the theorems below only
evaluate in-range accesses. -/
def defaultRoom : RoomS := ⟨0, ⟨⟨0, 0, 0⟩, ⟨0, 0, 0⟩⟩, [], []⟩

def defaultFace : FaceS := ⟨⟨0, 0, 0⟩, ⟨0, 0, 0⟩, none, false⟩

/-- `FaceRoomRecord`. -/
structure FaceRoomRecord where
  face_index : Nat
  room_index : Nat
deriving DecidableEq, Repr

/-- `room_manual_AABB(face, min_xyz, max_xyz)` (intersection.rs lines
1434-1446). -/
def roomManualAABB (face : FaceS) (min_xyz max_xyz : Vec3) : Bool :=
  if max_xyz.y < face.min_xyz.y ∨ face.max_xyz.y < min_xyz.y ∨
      max_xyz.x < face.min_xyz.x ∨ face.max_xyz.x < min_xyz.x ∨
      max_xyz.z < face.min_xyz.z ∨ face.max_xyz.z < min_xyz.z then false
  else true

/-- The mutable locals of the `quick_dist_facelist` loop. -/
structure FlState where
  num_faces : Nat
  qfl : Option (List FaceRoomRecord)
  next_rooms : List RoomS
  rooms_visited : List Nat
deriving Repr

/-- The body of `for face_index in &bbf_list.faces` for one face index: `i` is
the index of the enclosing region (the source records and touches `i`, not
`face_index`).  Returns the updated (state, faces_touched) and whether to
continue the face loop (`false` models `break`). -/
def faceStep (room_list : List RoomS) (room : RoomS) (min_xyz max_xyz : Vec3) (i : Nat)
    (st : FlState × List Nat) (face_index : Nat) : (FlState × List Nat) × Bool :=
  let face := room.faces.getD face_index defaultFace
  if ¬ roomManualAABB face min_xyz max_xyz then (st, true)
  else
    match st.1.qfl with
    | some list =>
      if st.1.num_faces < list.length then
        let st1 := ({ st.1 with qfl := some (list.set st.1.num_faces ⟨i, room.id⟩) }, st.2)
        faceStepTail room_list room i st1
      else (({ st.1 with qfl := none }, st.2), false)
    | none =>
      let st1 := ({ st.1 with qfl := none, num_faces := st.1.num_faces + 1 }, st.2)
      faceStepTail room_list room i st1
where
  /-- The part after the quick-face-list bookkeeping: mark region index `i`
  touched and follow the portal of `faces[i]` (again index `i`, as in the
  source). -/
  faceStepTail (room_list : List RoomS) (room : RoomS) (i : Nat)
      (st : FlState × List Nat) : (FlState × List Nat) × Bool :=
    let st2 := (st.1, st.2 ++ [i])
    match (room.faces.getD i defaultFace).portal with
    | some (some cr_idx) =>
      if st2.1.next_rooms.length < 20 then
        let cr := room_list.getD cr_idx defaultRoom
        if cr.id ∈ st2.1.rooms_visited then (st2, true)
        else
          (({ st2.1 with
              rooms_visited := st2.1.rooms_visited ++ [cr.id],
              next_rooms := st2.1.next_rooms ++ [cr] }, st2.2), true)
      else (st2, true)
    | _ => (st2, true)

/-- The face loop of one region, honouring `break`. -/
def faceLoop (room_list : List RoomS) (room : RoomS) (min_xyz max_xyz : Vec3) (i : Nat) :
    List Nat → FlState × List Nat → FlState × List Nat
  | [], st => st
  | f :: rest, st =>
    let r := faceStep room_list room min_xyz max_xyz i st f
    if r.2 then faceLoop room_list room min_xyz max_xyz i rest r.1 else r.1

/-- The `m_sector` computation (with the source's comparison of `min_xyz.z`
against `bb_range.min.x` on the `0x04` bit). -/
def mSector (bb : RangeQ) (min_xyz max_xyz : Vec3) : Nat :=
  let s0 := if min_xyz.x ≤ bb.min.x then 1 else 0
  let s1 := if min_xyz.y ≤ bb.min.y then s0 ||| 2 else s0
  let s2 := if min_xyz.z ≤ bb.min.x then s1 ||| 4 else s1
  let s3 := if max_xyz.x ≥ bb.max.x then s2 ||| 8 else s2
  let s4 := if max_xyz.y ≥ bb.max.y then s3 ||| 16 else s3
  if max_xyz.z ≥ bb.max.z then s4 ||| 32 else s4

/-- The region loop (`for (i, bbf_list) in ...enumerate()`): sector-mask and
range rejection, then the face loop. -/
def regionLoop (room_list : List RoomS) (room : RoomS) (min_xyz max_xyz : Vec3)
    (m_sector : Nat) (st : FlState × List Nat) : FlState × List Nat :=
  (room.regions.enum).foldl
    (fun acc p =>
      let i := p.1
      let bbf_list := p.2
      if Nat.land bbf_list.sector m_sector = bbf_list.sector then
        if bbf_list.range.min.x > max_xyz.x ∨ bbf_list.range.min.y > max_xyz.y ∨
            bbf_list.range.min.z > max_xyz.z ∨ bbf_list.range.max.x < min_xyz.x ∨
            bbf_list.range.max.y < min_xyz.y ∨ bbf_list.range.max.z < min_xyz.z then acc
        else faceLoop room_list room min_xyz max_xyz i bbf_list.faces acc
      else acc)
    st

/-- Mark `FaceFlags::TOUCHED` on the given face indices of a room. -/
def markTouched (room : RoomS) (touched : List Nat) : RoomS :=
  touched.foldl
    (fun r t =>
      { r with faces := r.faces.set t { r.faces.getD t defaultFace with touched := true } })
    room

/-- The `while head < next_rooms.len()` loop, by fuel (21 suffices: `head`
increases every iteration and the queue never grows past its capacity of 20).
The room processed is `room_list.get(head).unwrap()` — the queue cursor
indexes the master room list, exactly as in the source; a `none` result
models that `unwrap` panicking.  The third component accumulates the ids of
the rooms actually processed. -/
def flLoop (min_xyz max_xyz : Vec3) :
    Nat → Nat → FlState → List RoomS → List Nat → Option (FlState × List RoomS × List Nat)
  | 0, _, st, room_list, processed => some (st, room_list, processed)
  | fuel + 1, head, st, room_list, processed =>
    if head < st.next_rooms.length then
      match room_list.get? head with
      | none => none
      | some current_room =>
        let m_sector := mSector current_room.bb_range min_xyz max_xyz
        let r := regionLoop room_list current_room min_xyz max_xyz m_sector (st, [])
        let room' := markTouched current_room r.2
        let room_list' := room_list.set head room'
        flLoop min_xyz max_xyz fuel (head + 1) r.1 room_list' (processed ++ [current_room.id])
    else some (st, room_list, processed)

/-- `quick_dist_facelist(initial_room, room_list, position, rad,
quick_face_list)`, instrumented with the processed room ids: returns
`(num_faces, final quick face list, room list with TOUCHED marks, processed
room ids)`, or `none` for the out-of-bounds `unwrap`. -/
def quickDistFacelist (initial_room : RoomS) (room_list : List RoomS) (position : Vec3)
    (rad : ℚ) (quick_face_list : Option (List FaceRoomRecord)) :
    Option (Nat × Option (List FaceRoomRecord) × List RoomS × List Nat) :=
  let min_xyz : Vec3 := ⟨position.x - rad, position.y - rad, position.z - rad⟩
  let max_xyz : Vec3 := ⟨position.x + rad, position.y + rad, position.z + rad⟩
  let st0 : FlState := ⟨0, quick_face_list, [initial_room], [initial_room.id]⟩
  match flLoop min_xyz max_xyz 21 0 st0 room_list [] with
  | none => none
  | some (st, rooms', processed) => some (st.num_faces, st.qfl, rooms', processed)

/-! ## `impl Default for IntersectionFinder` (intersection.rs lines 226-240) -/

def MAX_CELLS_VISITED : Nat := TERRAIN_DEPTH * TERRAIN_WIDTH

def MAX_TERRAIN_HEIGHT : ℚ := 350

/-- The fields of `IntersectionFinder` (scalars as ℚ, byte/u16 buffers as
`List Nat`, the placeholder `recorded_faces: Vec<()>` as `List Unit`, the two
`Option` pointers as `Option Unit`). -/
structure IntersectionFinderS where
  ceiling_height : ℚ
  always_check_ceiling : Bool
  terrain_visit_list : List Nat
  terrain_obj_visit_list : List Nat
  check_terrain : Bool
  zero_rad : Bool
  cells_visited : List Nat
  cells_obj_visited : List Nat
  wall_sphere_rad : ℚ
  wall_sphere_offset : Vec3
  wall_sphere_p0 : Vec3
  wall_sphere_p1 : Vec3
  anim_sphere_rad : ℚ
  anim_sphere_offset : Vec3
  anim_sphere_p0 : Vec3
  anim_sphere_p1 : Vec3
  hit_data : Option Unit
  query : Option Unit
  collision_dist : ℚ
  max_xyz : Vec3
  min_xyz : Vec3
  movement_delta : Vec3
  wall_max_xyz : Vec3
  wall_min_xyz : Vec3
  curobj : Int
  moveobj : Int
  recorded_faces : List Unit

/-- Fuel-indexed model of `IntersectionFinder::default()`.  The struct literal
ends in `..Default::default()`, which invokes this very function, so the
explicitly listed fields can only be applied to the value of a recursive
call: with any finite fuel the construction never completes. -/
def intersectionFinderDefault : Nat → Option IntersectionFinderS
  | 0 => none
  | fuel + 1 =>
    match intersectionFinderDefault fuel with
    | none => none
    | some base =>
      some { base with
        ceiling_height := MAX_TERRAIN_HEIGHT
        always_check_ceiling := false
        terrain_visit_list := List.replicate ((TERRAIN_DEPTH * TERRAIN_WIDTH) / 8 + 1) 0
        terrain_obj_visit_list := List.replicate ((TERRAIN_DEPTH * TERRAIN_WIDTH) / 8 + 1) 0
        cells_visited := List.replicate MAX_CELLS_VISITED 0
        cells_obj_visited := List.replicate MAX_CELLS_VISITED 0
        recorded_faces := List.replicate 200 () }

/-! # Theorems -/

/-! ## C10: IntersectionFinder::default() -/

/-- **C10** (code_bug evidence).  `IntersectionFinder::default()` never
completes: the struct literal's `..Default::default()` base re-invokes the
same `default`, so for every amount of fuel the fuel-indexed model produces
no value.  The claim's statement that construction terminates with the sized
buffers is therefore false of the code. -/
theorem c10_default_never_terminates :
    ∀ fuel, intersectionFinderDefault fuel = none := by
  intro fuel
  induction fuel with
  | zero => rfl
  | succ n ih => simp [intersectionFinderDefault, ih]

/-! ## C5: collision map mirror symmetry -/

/-- The claim's mirror is an involution. -/
lemma mirrorResult_involutive : ∀ v, mirrorResult (mirrorResult v) = v := by decide

/-- Enum discriminants are distinct. -/
lemma ObjectClass.toNat_inj : ∀ a b : ObjectClass, a.toNat = b.toNat → a = b := by decide

/-- Writing `v` at `(t1, t2)` and then `mirrorResult v` at `(t2, t1)` keeps a
table mirror-symmetric, provided the classes differ or `v` is mirror-fixed. -/
lemma setPair_preserves_symmetry (m : CollisionMapS) (t1 t2 : ObjectClass)
    (v : CollisionResultType) (hm : MirrorSymmetric m)
    (h : t1 ≠ t2 ∨ mirrorResult v = v) :
    MirrorSymmetric (setResult (setResult m t1 t2 v) t2 t1 (mirrorResult v)) := by
  intro i hi j hj
  simp only [setResult]
  by_cases h1 : i = t2.toNat ∧ j = t1.toNat
  · rw [if_pos h1]
    by_cases hab : t1.toNat = t2.toNat
    · have hv : mirrorResult v = v := by
        rcases h with h | h
        · exact absurd (ObjectClass.toNat_inj _ _ hab) h
        · exact h
      have hp : j = t2.toNat ∧ i = t1.toNat := ⟨h1.2.trans hab, h1.1.trans hab.symm⟩
      rw [if_pos hp, mirrorResult_involutive, hv]
    · have hneg : ¬ (j = t2.toNat ∧ i = t1.toNat) := fun hc => hab (h1.2.symm.trans hc.1)
      have hp : j = t1.toNat ∧ i = t2.toNat := ⟨h1.2, h1.1⟩
      rw [if_neg hneg, if_pos hp]
  · by_cases h2 : i = t1.toNat ∧ j = t2.toNat
    · have hp : j = t2.toNat ∧ i = t1.toNat := ⟨h2.2, h2.1⟩
      rw [if_neg h1, if_pos h2, if_pos hp, mirrorResult_involutive]
    · have hn1 : ¬ (j = t2.toNat ∧ i = t1.toNat) := fun hc => h2 ⟨hc.2, hc.1⟩
      have hn2 : ¬ (j = t1.toNat ∧ i = t2.toNat) := fun hc => h1 ⟨hc.2, hc.1⟩
      rw [if_neg h1, if_neg h2, if_neg hn1, if_neg hn2]
      exact hm i hi j hj

/-- **C5, counterexample.**  The default table is mirror-symmetric, yet the
`enable_collision_sphere_poly` operation applied with both arguments equal
(a directional pair on the diagonal) destroys the symmetry: the final store
leaves `CheckPolySphere` at `(Robot, Robot)`, which is not mirror-fixed.  So
"every enable/disable operation preserves this symmetry" is false as
stated. -/
theorem c5_counterexample :
    MirrorSymmetric collisionMapDefault ∧
    ¬ MirrorSymmetric
      (enableCollisionSpherePoly collisionMapDefault ObjectClass.Robot ObjectClass.Robot) := by
  constructor
  · unfold MirrorSymmetric
    decide
  · unfold MirrorSymmetric
    decide

/-- **C5, amended.**  In the default-constructed `CollisionMap` the table
entry for `(A, B)` equals the mirror of the entry for `(B, A)` for every
class pair, where the mirror swaps `CheckSpherePoly`/`CheckPolySphere`,
`CheckBBoxPoly`/`CheckPolyBBox` and `CheckBBoxSphere`/`CheckSphereBBox` and
fixes the other kinds; every enable/disable operation on two **distinct**
classes preserves this symmetry, and the symmetric-kind operations
(sphere-sphere, bbox-bbox, sphere-room, bbox-room, disable) preserve it for
arbitrary arguments.  (A directional enable with both arguments equal breaks
it, as `c5_counterexample` shows, which is the only change to the claim.) -/
theorem c5_collision_map_mirror_symmetry :
    MirrorSymmetric collisionMapDefault ∧
    (∀ m t1 t2, MirrorSymmetric m → t1 ≠ t2 →
      MirrorSymmetric (enableCollisionSpherePoly m t1 t2) ∧
      MirrorSymmetric (enableCollisionPolySphere m t1 t2) ∧
      MirrorSymmetric (enableCollisionBBoxPoly m t1 t2) ∧
      MirrorSymmetric (enableCollisionPolyBBox m t1 t2) ∧
      MirrorSymmetric (enableCollisionBBoxSphere m t1 t2) ∧
      MirrorSymmetric (enableCollisionSphereBBox m t1 t2)) ∧
    (∀ m t1 t2, MirrorSymmetric m →
      MirrorSymmetric (enableCollisionSphereSphere m t1 t2) ∧
      MirrorSymmetric (enableCollisionBBoxBBox m t1 t2) ∧
      MirrorSymmetric (enableCollisionSphereRoom m t1 t2) ∧
      MirrorSymmetric (enableCollisionBBoxRoom m t1 t2) ∧
      MirrorSymmetric (disableCollision m t1 t2)) := by
  refine ⟨?_, ?_, ?_⟩
  · unfold MirrorSymmetric
    decide
  · intro m t1 t2 hm hne
    exact ⟨setPair_preserves_symmetry m t1 t2 _ hm (Or.inl hne),
      setPair_preserves_symmetry m t1 t2 _ hm (Or.inl hne),
      setPair_preserves_symmetry m t1 t2 _ hm (Or.inl hne),
      setPair_preserves_symmetry m t1 t2 _ hm (Or.inl hne),
      setPair_preserves_symmetry m t1 t2 _ hm (Or.inl hne),
      setPair_preserves_symmetry m t1 t2 _ hm (Or.inl hne)⟩
  · intro m t1 t2 hm
    exact ⟨setPair_preserves_symmetry m t1 t2 _ hm (Or.inr rfl),
      setPair_preserves_symmetry m t1 t2 _ hm (Or.inr rfl),
      setPair_preserves_symmetry m t1 t2 _ hm (Or.inr rfl),
      setPair_preserves_symmetry m t1 t2 _ hm (Or.inr rfl),
      setPair_preserves_symmetry m t1 t2 _ hm (Or.inr rfl)⟩

/-- **C5, witness**: the amended theorem applied at concrete inputs — the
default table is symmetric and a directional enable on the distinct pair
(Wall, Robot) keeps it symmetric. -/
theorem c5_witness :
    MirrorSymmetric
      (enableCollisionSpherePoly collisionMapDefault ObjectClass.Wall ObjectClass.Robot) :=
  (c5_collision_map_mirror_symmetry.2.1 collisionMapDefault ObjectClass.Wall ObjectClass.Robot
    c5_collision_map_mirror_symmetry.1 (by decide)).1


/-! ## C6: check_point_to_face -/

/-- **C6** (code_bug evidence).  The edge mask `check_point_to_face` returns
never depends on the query point: the source subtracts `v0` from a
zero-initialised `check_vec` without ever adding `colp`'s coordinates.
Consequently the mask is identical for any two query points, and for the unit
square in the z = 0 plane the mask is 0 ("inside") even for the far-outside
query point (10, 10, 0) — the claim's "bit i set iff the projected point lies
outside edge i" and "zero mask exactly when inside" are false of the code. -/
theorem c6_code_evaluation :
    (∀ (colp1 colp2 face_normal : Vec3) (nv : Nat) (vector_list : List Vec3),
      checkPointToFace colp1 face_normal nv vector_list =
        checkPointToFace colp2 face_normal nv vector_list) ∧
    checkPointToFace ⟨10, 10, 0⟩ ⟨0, 0, 1⟩ 4
      [⟨0, 0, 0⟩, ⟨1, 0, 0⟩, ⟨1, 1, 0⟩, ⟨0, 1, 0⟩] = 0 ∧
    checkPointToFace ⟨1 / 2, 1 / 2, 0⟩ ⟨0, 0, 1⟩ 4
      [⟨0, 0, 0⟩, ⟨1, 0, 0⟩, ⟨1, 1, 0⟩, ⟨0, 1, 0⟩] = 0 := by
  refine ⟨fun _ _ _ _ _ => rfl, ?_, ?_⟩ <;>
    norm_num [checkPointToFace, ijTable, Vec3.nth, List.range_succ]

/-! ## C1: check_vector_to_cylinder -/

/-- Component form of vector subtraction, for unfolding in proofs. -/
lemma Vec3.sub_def (a b : Vec3) : a - b = ⟨a.x - b.x, a.y - b.y, a.z - b.z⟩ := rfl

/-- Component form of vector addition, for unfolding in proofs. -/
lemma Vec3.add_def (a b : Vec3) : a + b = ⟨a.x + b.x, a.y + b.y, a.z + b.z⟩ := rfl

/-- `natSqrt` on the perfect squares the evaluations below meet. -/
lemma natSqrt_100 : natSqrt 100 = 10 := by decide

/-- `sqrtQ 100 = 10`. -/
lemma sqrtQ_100 : sqrtQ 100 = 10 := by
  rw [sqrtQ]
  norm_num [natSqrt_100, show Int.toNat 100 = 100 from rfl, show natSqrt 1 = 1 from rfl]

/-- `Matrix::from_vector(Some(_), None, None)` always fails its
`up.is_some() && right.is_some()` assertion. -/
lemma fromVector_some_none_none (v : Vec3) : fromVector (some v) none none = .error () := rfl

/-- **C1** (code_bug evidence).  First conjunct: for the motion
(5,0,5) → (−5,0,5) of a radius-1 sphere sweeping straight through the
cylinder of radius 1 around the edge (0,0,0)–(0,0,10), the code reports no
hit: `is_point_in_cylinder` answers false (second conjunct: the start point
is not inside the cylinder), and the source runs the swept-circle
computation only when that test answers **true** (the claim, and the
original engine, want the opposite), while the immediate-hit branch is
unreachable because `init_collide` can only be set on the true path.  Third
conjunct: as a consequence (and because the swept branch starts with
`Matrix::from_vector(Some(..), None, None)`, which always panics), the
function can never report a hit at all. -/
theorem c1_code_evaluation :
    checkVectorToCylinder ⟨5, 0, 5⟩ ⟨-5, 0, 5⟩ 1 ⟨0, 0, 0⟩ ⟨0, 0, 10⟩ = .ok none ∧
    isPointInCylinder ⟨0, 0, 0⟩ ⟨0, 0, 10⟩ 10 1 ⟨5, 0, 5⟩ ⟨-10, 0, 0⟩ = none ∧
    (∀ (p0 p1 : Vec3) (rad : ℚ) (ep0 ep1 : Vec3) (h : CylHit),
      checkVectorToCylinder p0 p1 rad ep0 ep1 ≠ .ok (some h)) := by
  have hipc : isPointInCylinder ⟨0, 0, 0⟩ ⟨0, 0, 10⟩ 10 1 ⟨5, 0, 5⟩ ⟨-10, 0, 0⟩ = none := by
    norm_num [isPointInCylinder, Vec3.dot, Vec3.sub_def]
  refine ⟨?_, hipc, ?_⟩
  · have h1 : normalizeMut ((⟨-5, 0, 5⟩ : Vec3) - ⟨5, 0, 5⟩) = (⟨-10, 0, 0⟩, 10) := by
      norm_num [normalizeMut, Vec3.magnitude, Vec3.dot, Vec3.sub_def, sqrtQ_100]
    have h2 : normalizeMut ((⟨0, 0, 10⟩ : Vec3) - ⟨0, 0, 0⟩) = (⟨0, 0, 10⟩, 10) := by
      norm_num [normalizeMut, Vec3.magnitude, Vec3.dot, Vec3.sub_def, sqrtQ_100]
    unfold checkVectorToCylinder
    rw [h1, h2]
    simp only [hipc]
    simp
  · intro p0 p1 rad ep0 ep1 h
    unfold checkVectorToCylinder
    rcases hip : isPointInCylinder ep0 (normalizeMut (ep1 - ep0)).1 (normalizeMut (ep1 - ep0)).2
        rad p0 (normalizeMut (p1 - p0)).1 with _ | pr
    · simp only [hip]
      simp
    · simp only [hip, fromVector_some_none_none]
      simp

/-! ## C9: quick_dist_cell_list stays in bounds? -/

/-- `quick_dist_cell_list`'s conditional on an all-zero terrain with the
query's vertical threshold at 100: every disjunct is false, so all four
segment reads happen. -/
lemma cellCheckReads_all_zero (c : Nat) :
    cellCheckReads (fun _ => 0) ((100 : ℚ) - 0) c =
      ([c, c + TERRAIN_WIDTH + 1, c + 1, c + TERRAIN_WIDTH], false) := by
  norm_num [cellCheckReads]

/-- **C9** (code_bug evidence).  Starting `quick_dist_cell_list` from cell
65280 = (row 255, col 0) with radius 0 visits the clamped window rows 254-255,
cols 0-1 — including the bottom-row cell 65280 — and while evaluating that
cell's conditional the code reads `terrain.segments[65280 + TERRAIN_WIDTH +
1] = segments[65537]`, which is past the end of the `256 * 256`-element
segments vector (an out-of-bounds panic in Rust).  The claim that the reads
"never index past the array" is false: the window is clamped, but the
`+ 1`/`+ TERRAIN_WIDTH + 1` neighbour reads overrun on the last row. -/
theorem c9_code_evaluation :
    (quickDistCellList 65280 ⟨0, 100, 0⟩ 0 100 (fun _ => 0)).2 =
      [65024, 65025, 65280, 65281] ∧
    65537 ∈ (quickDistCellList 65280 ⟨0, 100, 0⟩ 0 100 (fun _ => 0)).1.1 ∧
    TERRAIN_DEPTH * TERRAIN_WIDTH ≤ 65537 := by
  refine ⟨?_, ?_, by norm_num [TERRAIN_DEPTH, TERRAIN_WIDTH]⟩ <;>
    (unfold quickDistCellList processCells
     norm_num [cellCheckReads_all_zero, TERRAIN_SIZE, TERRAIN_WIDTH, TERRAIN_DEPTH]
     decide)

/-! ## C7: check_vector_to_sphere -/

/-- `sqrtQ` is nonnegative. -/
lemma sqrtQ_nonneg (q : ℚ) : 0 ≤ sqrtQ q := by
  unfold sqrtQ
  positivity

/-- The bounded search never drops below its accumulator. -/
lemma natSqrtGo_ge (n : Nat) : ∀ fuel acc, acc ≤ natSqrtGo n fuel acc := by
  intro fuel
  induction fuel with
  | zero => intro acc; exact Nat.le_refl _
  | succ m ih =>
    intro acc
    unfold natSqrtGo
    split
    · exact Nat.le_trans (Nat.le_succ acc) (ih (acc + 1))
    · exact Nat.le_refl _

/-- `natSqrt` of a positive number is positive. -/
lemma natSqrt_pos (n : Nat) (h : 1 ≤ n) : 1 ≤ natSqrt n := by
  unfold natSqrt
  rcases n with _ | m
  · omega
  · unfold natSqrtGo
    rw [if_pos (by omega : (0 + 1) * (0 + 1) ≤ m + 1)]
    exact natSqrtGo_ge _ _ _

/-- `sqrtQ` of a positive rational is positive (the model's `sqrt` floor never
collapses a positive value to zero). -/
lemma sqrtQ_pos_of_pos (q : ℚ) (h : 0 < q) : 0 < sqrtQ q := by
  unfold sqrtQ
  have h1 : 1 ≤ q.num.toNat := by
    have := Rat.num_pos.mpr h
    omega
  have h2 : 1 ≤ q.den := q.pos
  apply div_pos
  · exact_mod_cast Nat.lt_of_lt_of_le Nat.zero_lt_one (natSqrt_pos _ h1)
  · exact_mod_cast Nat.lt_of_lt_of_le Nat.zero_lt_one (natSqrt_pos _ h2)

/-- A nonzero vector has positive self-dot. -/
lemma Vec3.dot_self_pos (v : Vec3) (h : v ≠ ⟨0, 0, 0⟩) : 0 < Vec3.dot v v := by
  unfold Vec3.dot
  rcases v with ⟨x, y, z⟩
  by_contra h'
  push_neg at h'
  simp only at h'
  have hx : x * x = 0 :=
    le_antisymm (by nlinarith [mul_self_nonneg y, mul_self_nonneg z]) (mul_self_nonneg _)
  have hy : y * y = 0 :=
    le_antisymm (by nlinarith [mul_self_nonneg x, mul_self_nonneg z]) (mul_self_nonneg _)
  have hz : z * z = 0 :=
    le_antisymm (by nlinarith [mul_self_nonneg x, mul_self_nonneg y]) (mul_self_nonneg _)
  exact h (by simp [mul_self_eq_zero.mp hx, mul_self_eq_zero.mp hy, mul_self_eq_zero.mp hz])

/-- **C7, amended.**  `check_vector_to_sphere` rejects whenever the motion is
moving away from the target centre (`dot(p1 - p0, center - p0) ≤ 0`); when
the start point overlaps the target sphere, the motion is toward the centre,
and the closest-point pre-check does not reject (the projection
`dot(p1 - p0, center - p0)` — unnormalised, because `Vector::normalize`
leaves its argument unchanged — is below `|p1 - p0| + rad`), it reports an
immediate zero-distance hit exactly when the `correcting` parameter is set;
the `init_collisions` parameter (the claim's `accept_initial`) is ignored
by the code. -/
theorem c7_sphere_initial_overlap (p0 p1 sphere_pos : Vec3) (sphere_rad : ℚ)
    (correcting init_collisions : Bool) :
    (Vec3.dot (p1 - p0) (sphere_pos - p0) ≤ 0 →
      checkVectorToSphere p0 p1 sphere_pos sphere_rad correcting init_collisions = none) ∧
    (0 < Vec3.dot (p1 - p0) (sphere_pos - p0) →
     Vec3.dot (sphere_pos - p0) (sphere_pos - p0) < sphere_rad ^ 2 →
     Vec3.dot (p1 - p0) (sphere_pos - p0) <
       sqrtQ (Vec3.dot (p1 - p0) (p1 - p0)) + sphere_rad →
      (correcting = true →
        ∃ p, checkVectorToSphere p0 p1 sphere_pos sphere_rad correcting init_collisions =
          some (p, 0)) ∧
      (correcting = false →
        checkVectorToSphere p0 p1 sphere_pos sphere_rad correcting init_collisions = none)) := by
  constructor
  · intro h
    unfold checkVectorToSphere
    rw [if_pos h]
  · intro hd hov hcl
    have hne : p1 - p0 ≠ ⟨0, 0, 0⟩ := by
      intro hz
      rw [hz] at hd
      simp [Vec3.dot] at hd
    have hll : 0 < Vec3.dot (p1 - p0) (p1 - p0) := Vec3.dot_self_pos _ hne
    have hmag : (0 : ℚ) < sqrtQ (Vec3.dot (p1 - p0) (p1 - p0)) := sqrtQ_pos_of_pos _ hll
    have hnorm : normalizeMut (p1 - p0) =
        (p1 - p0, sqrtQ (Vec3.dot (p1 - p0) (p1 - p0))) := by
      unfold normalizeMut Vec3.magnitude
      rw [if_pos hmag]
    have hng : ¬ (Vec3.dot (p1 - p0) (sphere_pos - p0) < 0 ∨
        Vec3.dot (p1 - p0) (sphere_pos - p0) ≥
          sqrtQ (Vec3.dot (p1 - p0) (p1 - p0)) + sphere_rad) := by
      push_neg
      exact ⟨hd.le, hcl⟩
    constructor
    · intro hc
      subst hc
      unfold checkVectorToSphere
      rw [if_neg (not_le.mpr hd), hnorm]
      simp only
      rw [if_neg hng, if_pos hov]
      refine ⟨p0 - (normalizeMut (sphere_pos - p0)).1.smul
        (sphere_rad - sqrtQ (sphere_rad ^ 2 - Vec3.dot (sphere_pos - p0) (sphere_pos - p0))),
        ?_⟩
      rw [if_pos trivial]
    · intro hc
      subst hc
      unfold checkVectorToSphere
      rw [if_neg (not_le.mpr hd), hnorm]
      simp only
      rw [if_neg hng, if_pos hov]
      simp

/-- `natSqrt 9 = 3`. -/
lemma natSqrt_9 : natSqrt 9 = 3 := by decide

/-- `sqrtQ 9 = 3`. -/
lemma sqrtQ_9 : sqrtQ 9 = 3 := by
  rw [sqrtQ]
  norm_num [natSqrt_9, show Int.toNat 9 = 9 from rfl, show natSqrt 1 = 1 from rfl]

/-- **C7, counterexample.**  For the motion (0,0,0) → (0,0,3) against a
sphere of radius 2 centred at (0,0,1) — start point overlapping the target,
motion toward the centre — the call with `init_collisions = true` but
`correcting = false` returns no hit, although the claim ("an immediate
zero-distance hit only when the init_collisions parameter is set") requires
one: the code branches on `correcting` and never reads `init_collisions`. -/
theorem c7_counterexample :
    checkVectorToSphere ⟨0, 0, 0⟩ ⟨0, 0, 3⟩ ⟨0, 0, 1⟩ 2 false true = none ∧
    0 < Vec3.dot ((⟨0, 0, 3⟩ : Vec3) - ⟨0, 0, 0⟩) ((⟨0, 0, 1⟩ : Vec3) - ⟨0, 0, 0⟩) ∧
    Vec3.dot ((⟨0, 0, 1⟩ : Vec3) - ⟨0, 0, 0⟩) ((⟨0, 0, 1⟩ : Vec3) - ⟨0, 0, 0⟩) < 2 ^ 2 := by
  refine ⟨?_, by norm_num [Vec3.dot, Vec3.sub_def], by norm_num [Vec3.dot, Vec3.sub_def]⟩
  norm_num [checkVectorToSphere, normalizeMut, Vec3.magnitude, Vec3.dot, Vec3.sub_def, sqrtQ_9]

/-- **C7, witness**: the amended theorem applied at the concrete overlapping
start (0,0,0) → (0,0,3) versus the radius-2 sphere at (0,0,1): with
`correcting = true` a zero-distance hit is reported, with `correcting =
false` a miss. -/
theorem c7_witness :
    (∃ p, checkVectorToSphere ⟨0, 0, 0⟩ ⟨0, 0, 3⟩ ⟨0, 0, 1⟩ 2 true false = some (p, 0)) ∧
    checkVectorToSphere ⟨0, 0, 0⟩ ⟨0, 0, 3⟩ ⟨0, 0, 1⟩ 2 false false = none := by
  constructor
  · exact ((c7_sphere_initial_overlap ⟨0, 0, 0⟩ ⟨0, 0, 3⟩ ⟨0, 0, 1⟩ 2 true false).2
      (by norm_num [Vec3.dot, Vec3.sub_def])
      (by norm_num [Vec3.dot, Vec3.sub_def])
      (by norm_num [Vec3.dot, Vec3.sub_def, sqrtQ_9])).1 rfl
  · exact ((c7_sphere_initial_overlap ⟨0, 0, 0⟩ ⟨0, 0, 3⟩ ⟨0, 0, 1⟩ 2 false false).2
      (by norm_num [Vec3.dot, Vec3.sub_def])
      (by norm_num [Vec3.dot, Vec3.sub_def])
      (by norm_num [Vec3.dot, Vec3.sub_def, sqrtQ_9])).2 rfl

/-! ## C2 and C8: find_plane_line_intersection -/

/-- Self-dot is nonnegative. -/
lemma Vec3.dot_self_nonneg (v : Vec3) : 0 ≤ Vec3.dot v v := by
  unfold Vec3.dot
  nlinarith [mul_self_nonneg v.x, mul_self_nonneg v.y, mul_self_nonneg v.z]

set_option maxHeartbeats 2000000 in
/-- **C2, amended.**  For a unit plane normal and `rad ≥ 0`,
`find_plane_line_intersection` returns no intersection **exactly** when the
motion is not moving toward the plane (`dot(n, p1 - p0) ≥ 0`), or the
sphere's starting centre is strictly behind the plane **at all** (by any
positive amount — not only by more than `rad`, which is what the claim
said), or the sphere does not start within `rad` of the plane and the
motion's endpoint stays at least `rad` in front of it (`dot(n, pp - p0) +
rad ≤ dot(n, p1 - p0)`); in every other case it returns an intersection and
collision point. -/
theorem c2_plane_line_rejection (pp n p0 p1 : Vec3) (rad : ℚ)
    (hrad : 0 ≤ rad) (hn : Vec3.dot n n = 1) :
    (findPlaneLineIntersection pp n p0 p1 rad = .ok none ↔
      (Vec3.dot n (p1 - p0) ≥ 0 ∨ 0 < Vec3.dot n (pp - p0) ∨
        Vec3.dot n (pp - p0) + rad ≤ Vec3.dot n (p1 - p0))) ∧
    (¬ (Vec3.dot n (p1 - p0) ≥ 0 ∨ 0 < Vec3.dot n (pp - p0) ∨
        Vec3.dot n (pp - p0) + rad ≤ Vec3.dot n (p1 - p0)) →
      ∃ ic, findPlaneLineIntersection pp n p0 p1 rad = .ok (some ic)) := by
  have r1 : Vec3.dot (p1 - pp) n = Vec3.dot n (p1 - p0) - Vec3.dot n (pp - p0) := by
    simp only [Vec3.dot, Vec3.sub_def]
    ring
  simp only [findPlaneLineIntersection]
  rw [if_neg (not_not_intro hrad)]
  by_cases hL : Vec3.dot n (p1 - p0) ≥ 0
  · rw [if_pos hL]
    exact ⟨iff_of_true rfl (Or.inl hL), fun hc => absurd (Or.inl hL) hc⟩
  · rw [if_neg hL]
    by_cases hD : Vec3.dot n (pp - p0) > 0
    · rw [if_pos hD]
      exact ⟨iff_of_true rfl (Or.inr (Or.inl hD)), fun hc => absurd (Or.inr (Or.inl hD)) hc⟩
    · rw [if_neg hD]
      by_cases hP : Vec3.dot n (pp - p0) + rad > 0 ∧ Vec3.dot n (p1 - p0) < 0
      · rw [if_pos hP]
        refine ⟨iff_of_false (by simp) ?_, fun _ => ⟨_, rfl⟩⟩
        push_neg
        exact ⟨not_le.mp hL, not_lt.mp hD, by linarith [hP.1]⟩
      · rw [if_neg hP]
        by_cases hPL : Vec3.dot n (pp - p0) + rad ≤ Vec3.dot n (p1 - p0)
        · rw [if_pos hPL]
          exact ⟨iff_of_true rfl (Or.inr (Or.inr hPL)),
            fun hc => absurd (Or.inr (Or.inr hPL)) hc⟩
        · rw [if_neg hPL]
          push_neg at hPL
          by_cases hpar : |Vec3.dot n (p1 - p0)| ≤ 1 / 100000000000
          · rw [if_pos hpar]
            have hpd : ¬ Vec3.dot (p1 - pp) n ≥ rad := by
              rw [r1]
              push_neg
              linarith
            rw [if_neg hpd]
            have r2 : Vec3.dot (p1 + Vec3.smul n (rad - Vec3.dot (p1 - pp) n) - pp) n =
                Vec3.dot (p1 - pp) n + (rad - Vec3.dot (p1 - pp) n) * Vec3.dot n n := by
              simp only [Vec3.dot, Vec3.sub_def, Vec3.add_def, Vec3.smul]
              ring
            have hassert : ¬ ¬ Vec3.dot (p1 + Vec3.smul n (rad - Vec3.dot (p1 - pp) n) - pp)
                n ≥ -(1 / 100) := by
              rw [not_not, r2, hn]
              linarith
            rw [if_neg hassert]
            refine ⟨iff_of_false (by simp) ?_, fun _ => ⟨_, rfl⟩⟩
            push_neg
            exact ⟨not_le.mp hL, not_lt.mp hD, hPL⟩
          · rw [if_neg hpar]
            refine ⟨iff_of_false (by simp) ?_, fun _ => ⟨_, rfl⟩⟩
            push_neg
            exact ⟨not_le.mp hL, not_lt.mp hD, hPL⟩

/-- **C2, counterexample.**  Plane z = 0 with unit normal (0,0,1), start
centre (0,0,-1/2) — behind the plane, but by only 1/2 < rad = 1 — moving to
(0,0,-2).  The motion moves toward the plane, the start is *not* more than
`rad` behind it, and the start is already within `rad` of the plane (so the
motion trivially reaches within `rad`), yet the code returns "no
intersection": it rejects any start centre strictly behind the plane, not
only those more than `rad` behind, so the claim's rejection condition is
wrong. -/
theorem c2_counterexample :
    findPlaneLineIntersection ⟨0, 0, 0⟩ ⟨0, 0, 1⟩ ⟨0, 0, -(1/2)⟩ ⟨0, 0, -2⟩ 1 = .ok none ∧
    Vec3.dot ⟨0, 0, 1⟩ ((⟨0, 0, -2⟩ : Vec3) - ⟨0, 0, -(1/2)⟩) < 0 ∧
    Vec3.dot ⟨0, 0, 1⟩ ((⟨0, 0, 0⟩ : Vec3) - ⟨0, 0, -(1/2)⟩) ≤ 1 ∧
    |Vec3.dot ⟨0, 0, 1⟩ ((⟨0, 0, -(1/2)⟩ : Vec3) - ⟨0, 0, 0⟩)| < 1 := by
  refine ⟨?_, by norm_num [Vec3.dot, Vec3.sub_def], by norm_num [Vec3.dot, Vec3.sub_def],
    by norm_num [Vec3.dot, Vec3.sub_def, abs_lt]⟩
  norm_num [findPlaneLineIntersection, Vec3.dot, Vec3.sub_def]

/-- **C2, witness**: the amended theorem applied to the plane z = 0 and the
motion (0,0,5) → (0,0,4) with `rad = 1`: the endpoint stays 4 ≥ rad in front
of the plane, so no intersection is reported. -/
theorem c2_witness :
    findPlaneLineIntersection ⟨0, 0, 0⟩ ⟨0, 0, 1⟩ ⟨0, 0, 5⟩ ⟨0, 0, 4⟩ 1 = .ok none :=
  (c2_plane_line_rejection ⟨0, 0, 0⟩ ⟨0, 0, 1⟩ ⟨0, 0, 5⟩ ⟨0, 0, 4⟩ 1 (by norm_num)
    (by norm_num [Vec3.dot])).1.mpr (by norm_num [Vec3.dot, Vec3.sub_def])

set_option maxHeartbeats 2000000 in
/-- **C8, confirmed.**  For a unit plane normal, `rad ≥ 0`, a start point
strictly in front of the plane and an end point strictly behind it,
`find_plane_line_intersection` returns true, and the intersection point's
distance from `p0` lies within `[0, |p1 - p0|]` (stated with squared
distances, which is equivalent since both are nonnegative). -/
theorem c8_plane_front_to_back (pp n p0 p1 : Vec3) (rad : ℚ)
    (hrad : 0 ≤ rad) (hn : Vec3.dot n n = 1)
    (hfront : 0 < Vec3.dot n (p0 - pp)) (hback : Vec3.dot n (p1 - pp) < 0) :
    ∃ ic cp, findPlaneLineIntersection pp n p0 p1 rad = .ok (some (ic, cp)) ∧
      Vec3.dot (ic - p0) (ic - p0) ≤ Vec3.dot (p1 - p0) (p1 - p0) := by
  have rL : Vec3.dot n (p1 - p0) = Vec3.dot n (p1 - pp) - Vec3.dot n (p0 - pp) := by
    simp only [Vec3.dot, Vec3.sub_def]
    ring
  have rD : Vec3.dot n (pp - p0) = -(Vec3.dot n (p0 - pp)) := by
    simp only [Vec3.dot, Vec3.sub_def]
    ring
  have r1 : Vec3.dot (p1 - pp) n = Vec3.dot n (p1 - pp) := by
    simp only [Vec3.dot, Vec3.sub_def]
    ring
  have hLneg : Vec3.dot n (p1 - p0) < 0 := by
    rw [rL]
    linarith
  have hS : 0 ≤ Vec3.dot (p1 - p0) (p1 - p0) := Vec3.dot_self_nonneg _
  simp only [findPlaneLineIntersection]
  rw [if_neg (not_not_intro hrad), if_neg (not_le.mpr hLneg),
    if_neg (not_lt.mpr (by rw [rD]; linarith))]
  by_cases hP : Vec3.dot n (pp - p0) + rad > 0 ∧ Vec3.dot n (p1 - p0) < 0
  · rw [if_pos hP]
    refine ⟨p0, _, rfl, ?_⟩
    have e0 : Vec3.dot (p0 - p0) (p0 - p0) = 0 := by
      simp only [Vec3.dot, Vec3.sub_def]
      ring
    rw [e0]
    exact hS
  · have hPle : Vec3.dot n (pp - p0) + rad ≤ 0 := by
      rcases not_and_or.mp hP with h | h
      · exact not_lt.mp h
      · exact absurd hLneg h
    have hnPL : ¬ (Vec3.dot n (pp - p0) + rad ≤ Vec3.dot n (p1 - p0)) := by
      rw [rL, rD]
      push_neg
      linarith
    rw [if_neg hP, if_neg hnPL]
    by_cases hpar : |Vec3.dot n (p1 - p0)| ≤ 1 / 100000000000
    · rw [if_pos hpar]
      have hpd : ¬ Vec3.dot (p1 - pp) n ≥ rad := by
        rw [r1]
        push_neg
        linarith
      rw [if_neg hpd]
      have r2 : Vec3.dot (p1 + Vec3.smul n (rad - Vec3.dot (p1 - pp) n) - pp) n =
          Vec3.dot (p1 - pp) n + (rad - Vec3.dot (p1 - pp) n) * Vec3.dot n n := by
        simp only [Vec3.dot, Vec3.sub_def, Vec3.add_def, Vec3.smul]
        ring
      have hassert : ¬ ¬ Vec3.dot (p1 + Vec3.smul n (rad - Vec3.dot (p1 - pp) n) - pp)
          n ≥ -(1 / 100) := by
        rw [not_not, r2, hn]
        linarith
      rw [if_neg hassert]
      refine ⟨_, _, rfl, ?_⟩
      have eexp : ∀ k : ℚ, Vec3.dot (p1 + Vec3.smul n k - p0) (p1 + Vec3.smul n k - p0) =
          Vec3.dot (p1 - p0) (p1 - p0) + 2 * k * Vec3.dot n (p1 - p0) +
            k ^ 2 * Vec3.dot n n := by
        intro k
        simp only [Vec3.dot, Vec3.sub_def, Vec3.add_def, Vec3.smul]
        ring
      rw [eexp, hn, r1]
      have hk : 0 < rad - Vec3.dot n (p1 - pp) := by linarith
      have hq : Vec3.dot n (p1 - pp) + rad - 2 * Vec3.dot n (p0 - pp) ≤ 0 := by
        rw [rD] at hPle
        linarith
      nlinarith [mul_nonpos_of_nonneg_of_nonpos hk.le hq, rL]
    · rw [if_neg hpar]
      refine ⟨_, _, rfl, ?_⟩
      have eexp2 : ∀ t : ℚ, Vec3.dot (p0 + Vec3.smul (p1 - p0) t - p0)
          (p0 + Vec3.smul (p1 - p0) t - p0) = t ^ 2 * Vec3.dot (p1 - p0) (p1 - p0) := by
        intro t
        simp only [Vec3.dot, Vec3.sub_def, Vec3.add_def, Vec3.smul]
        ring
      rw [eexp2]
      have hLne : Vec3.dot n (p1 - p0) ≠ 0 := ne_of_lt hLneg
      have hL2 : 0 < Vec3.dot n (p1 - p0) ^ 2 := pow_two_pos_of_ne_zero hLne
      have hP2 : (Vec3.dot n (pp - p0) + rad) ^ 2 ≤ Vec3.dot n (p1 - p0) ^ 2 := by
        push_neg at hnPL
        nlinarith [hPle, hLneg, hnPL]
      have ht1 : ((Vec3.dot n (pp - p0) + rad) / Vec3.dot n (p1 - p0)) ^ 2 ≤ 1 := by
        rw [div_pow]
        exact (div_le_one hL2).mpr hP2
      nlinarith [mul_nonneg (by linarith :
        (0:ℚ) ≤ 1 - ((Vec3.dot n (pp - p0) + rad) / Vec3.dot n (p1 - p0)) ^ 2) hS]

/-- **C8, witness**: the confirmed theorem applied to the plane z = 0 and
the motion (0,0,5) → (0,0,-5) with `rad = 1` (the spec's Scenario 1
geometry). -/
theorem c8_witness :
    ∃ ic cp, findPlaneLineIntersection ⟨0, 0, 0⟩ ⟨0, 0, 1⟩ ⟨0, 0, 5⟩ ⟨0, 0, -5⟩ 1 =
        .ok (some (ic, cp)) ∧
      Vec3.dot (ic - ⟨0, 0, 5⟩) (ic - ⟨0, 0, 5⟩) ≤
        Vec3.dot ((⟨0, 0, -5⟩ : Vec3) - ⟨0, 0, 5⟩) ((⟨0, 0, -5⟩ : Vec3) - ⟨0, 0, 5⟩) :=
  c8_plane_front_to_back ⟨0, 0, 0⟩ ⟨0, 0, 1⟩ ⟨0, 0, 5⟩ ⟨0, 0, -5⟩ 1 (by norm_num)
    (by norm_num [Vec3.dot]) (by norm_num [Vec3.dot, Vec3.sub_def])
    (by norm_num [Vec3.dot, Vec3.sub_def])

/-! ## C4: quick_dist_facelist room traversal -/

/-- One unfolding of the `while head < next_rooms.len()` loop when the guard
fails. -/
lemma flLoop_stop (mn mx : Vec3) (fuel head : Nat) (st : FlState) (rooms : List RoomS)
    (processed : List Nat) (h : ¬ head < st.next_rooms.length) :
    flLoop mn mx (fuel + 1) head st rooms processed = some (st, rooms, processed) := by
  simp only [flLoop]
  rw [if_neg h]

/-- One unfolding of the loop when the guard holds: the processed room is
`room_list[head]` — the queue cursor indexes the master room list. -/
lemma flLoop_go (mn mx : Vec3) (fuel head : Nat) (st : FlState) (rooms : List RoomS)
    (processed : List Nat) (room : RoomS) (h : head < st.next_rooms.length)
    (hr : rooms.get? head = some room) :
    flLoop mn mx (fuel + 1) head st rooms processed =
      flLoop mn mx fuel (head + 1)
        (regionLoop rooms room mn mx (mSector room.bb_range mn mx) (st, [])).1
        (rooms.set head
          (markTouched room (regionLoop rooms room mn mx (mSector room.bb_range mn mx) (st, [])).2))
        (processed ++ [room.id]) := by
  simp only [flLoop]
  rw [if_pos h, hr]

/-- A room with id 0, no faces, no portals and no bounding-box regions; it is
`room_list[0]` but is not connected to `roomStart` in any way. -/
def roomUnreachable : RoomS := ⟨0, ⟨⟨0, 0, 0⟩, ⟨0, 0, 0⟩⟩, [], []⟩

/-- The start room, id 1, no faces and hence no portals: a breadth-first
traversal from it visits exactly this room. -/
def roomStart : RoomS := ⟨1, ⟨⟨0, 0, 0⟩, ⟨0, 0, 0⟩⟩, [], []⟩

/-- **C4** (code_bug evidence).  With `room_list = [roomUnreachable,
roomStart]` and the traversal started from `roomStart` (which has no portals
at all), `quick_dist_facelist` processes exactly the room with id 0 —
`roomUnreachable`, which is not reachable from the start room — and never
processes the start room itself: the loop reads `room_list.get(head)`
instead of the queued room `next_rooms[head]`, so the BFS queue is pushed to
but never read.  The claim (breadth-first traversal over the portal graph
starting from start_room) requires exactly the room with id 1 to be
processed. -/
theorem c4_code_evaluation :
    (quickDistFacelist roomStart [roomUnreachable, roomStart] ⟨0, 0, 0⟩ 0 none).map
      (fun r => r.2.2.2) = some [0] ∧
    roomUnreachable.id = 0 ∧ roomStart.id = 1 ∧
    roomUnreachable.faces = [] ∧ roomStart.faces = [] := by
  refine ⟨?_, rfl, rfl, rfl, rfl⟩
  have hr1 : [roomUnreachable, roomStart].get? 0 = some roomUnreachable := rfl
  have h1 : (0 : Nat) <
      (FlState.mk 0 none [roomStart] [roomStart.id]).next_rooms.length := by simp
  unfold quickDistFacelist
  simp only [Option.map]
  rw [show (21 : Nat) = 20 + 1 from rfl]
  rw [flLoop_go _ _ _ _ _ _ _ roomUnreachable h1 hr1]
  have hreg : ∀ st : FlState × List Nat,
      regionLoop [roomUnreachable, roomStart] roomUnreachable
        ⟨0 - 0, 0 - 0, 0 - 0⟩ ⟨0 + 0, 0 + 0, 0 + 0⟩
        (mSector roomUnreachable.bb_range ⟨0 - 0, 0 - 0, 0 - 0⟩ ⟨0 + 0, 0 + 0, 0 + 0⟩) st =
        st := by
    intro st
    simp [regionLoop, roomUnreachable, List.enum]
  rw [hreg]
  simp only [markTouched, roomUnreachable, List.foldl_nil]
  rw [show (20 : Nat) = 19 + 1 from rfl]
  have h2 : ¬ (0 + 1 : Nat) <
      (FlState.mk 0 none [roomStart] [roomStart.id]).next_rooms.length := by simp
  rw [flLoop_stop _ _ _ _ _ _ _ h2]
  simp [roomUnreachable]


/-- Pointwise-equal functions give equal flatMaps. -/
lemma flatMap_congr {α β : Type} {l : List α} {f g : α → List β}
    (h : ∀ a ∈ l, f a = g a) : l.flatMap f = l.flatMap g := by
  induction l with
  | nil => rfl
  | cons x xs ih =>
    rw [List.flatMap_cons, List.flatMap_cons, h x (by simp), ih (fun a ha => h a (by simp [ha]))]

/-- A row scanned by a visitor that never stops advances the node counter by
`cols` and visits `node, node+1, …, node+cols-1` in order. -/
lemma processRow_true {σ : Type} (cond : σ → Nat → σ × Bool)
    (h : ∀ st n, (cond st n).2 = true) :
    ∀ (cols node : Nat) (s : σ),
      (processRow cond cols node s).2.1 = node + cols ∧
      (processRow cond cols node s).2.2 = (List.range cols).map (node + ·) := by
  intro cols
  induction cols with
  | zero => intro node s; simp [processRow]
  | succ m ih =>
    intro node s
    simp only [processRow, h]
    rw [if_pos trivial]
    refine ⟨?_, ?_⟩
    · rw [(ih (node + 1) (cond s node).1).1]
      omega
    · rw [(ih (node + 1) (cond s node).1).2, List.range_succ_eq_map, List.map_cons,
        List.map_map]
      refine congrArg₂ _ (by omega) ?_
      apply List.map_congr_left
      intro a _
      simp [Nat.succ_eq_add_one]
      omega

/-- With a never-stopping visitor the full scan visits, row by row, the
arithmetic grid starting at `node` with row stride `cols + delta`. -/
lemma processRows_true {σ : Type} (cond : σ → Nat → σ × Bool)
    (h : ∀ st n, (cond st n).2 = true) :
    ∀ (rows cols delta node : Nat) (s : σ),
      (processRows cond rows cols delta node s).2 =
        (List.range rows).flatMap (fun dy =>
          (List.range cols).map (fun dx => node + dy * (cols + delta) + dx)) := by
  intro rows
  induction rows with
  | zero => intro cols delta node s; simp [processRows]
  | succ m ih =>
    intro cols delta node s
    simp only [processRows]
    rw [(processRow_true cond h cols node s).2, (processRow_true cond h cols node s).1,
      ih cols delta (node + cols + delta) (processRow cond cols node s).1]
    rw [List.range_succ_eq_map, List.flatMap_cons, List.flatMap_map]
    refine congrArg₂ _ ?_ ?_
    · apply List.map_congr_left
      intro a _
      omega
    · apply flatMap_congr
      intro dy _
      apply List.map_congr_left
      intro dx _
      simp [Nat.succ_eq_add_one]
      ring_nf


/-- A row scanned by a visitor that always stops visits only its first cell
(the `break` exits the inner `for _x` loop only). -/
lemma processRow_false {σ : Type} (cond : σ → Nat → σ × Bool)
    (h : ∀ st n, (cond st n).2 = false) (cols node : Nat) (s : σ) (hc : 0 < cols) :
    (processRow cond cols node s).2.2 = [node] := by
  match cols, hc with
  | m + 1, _ =>
    simp only [processRow, h]
    rw [if_neg (by simp)]

/-- With an always-stopping visitor every row still gets its first cell
visited: the outer `for _y` loop is not exited by the inner `break`, so the
trace has one entry per row. -/
lemma processRows_false {σ : Type} (cond : σ → Nat → σ × Bool)
    (h : ∀ st n, (cond st n).2 = false) :
    ∀ (rows cols delta node : Nat) (s : σ), 0 < cols →
      (processRows cond rows cols delta node s).2.length = rows := by
  intro rows
  induction rows with
  | zero => intro cols delta node s _; simp [processRows]
  | succ m ih =>
    intro cols delta node s hc
    simp only [processRows, List.length_append]
    rw [processRow_false cond h cols node s hc, ih cols delta _ _ hc]
    simp only [List.length_singleton]
    omega

/-- The clamped window contains no repeated cell index. -/
lemma windowList_nodup (xs xe ys ye : Nat) (hxe : xe ≤ 255) :
    (windowList xs xe ys ye).Nodup := by
  rw [windowList, List.nodup_flatMap]
  constructor
  · intro dy _
    apply List.Nodup.map _ (List.nodup_range _)
    intro a b hab
    simp only [TERRAIN_WIDTH] at hab
    omega
  · refine List.Pairwise.imp ?_ (List.pairwise_lt_range _)
    intro dy1 dy2 hlt
    simp only [Function.onFun]
    intro c hc1 hc2
    simp only [List.mem_map, List.mem_range, TERRAIN_WIDTH] at hc1 hc2
    obtain ⟨dx1, hdx1, hc1⟩ := hc1
    obtain ⟨dx2, hdx2, hc2⟩ := hc2
    omega

/-- Every cell index of a clamped window is inside the `256 * 256` grid. -/
lemma windowList_bounds (xs xe ys ye : Nat) (hxe : xe ≤ 255) (hye : ye ≤ 255) :
    ∀ c ∈ windowList xs xe ys ye, c < 65536 := by
  intro c hc
  rw [windowList] at hc
  simp only [List.mem_flatMap, List.mem_map, List.mem_range, TERRAIN_WIDTH] at hc
  obtain ⟨dy, hdy, dx, hdx, hc⟩ := hc
  omega

/-- The arithmetic trace `process_cells` produces (start node
`TERRAIN_WIDTH * y_start + x_start`, row stride `cols + next_y_delta`)
is exactly the row-major window list. -/
lemma window_trace (xs xe ys ye : Nat) (hxs : xs ≤ xe) (hxe : xe ≤ 255) :
    (List.range (ye + 1 - ys)).flatMap (fun dy =>
      (List.range (xe + 1 - xs)).map (fun dx =>
        256 * ys + xs + dy * ((xe + 1 - xs) + (256 - (xe - xs) - 1)) + dx)) =
    windowList xs xe ys ye := by
  have hcd : (xe + 1 - xs) + (256 - (xe - xs) - 1) = 256 := by omega
  simp only [hcd, windowList, TERRAIN_WIDTH]
  apply flatMap_congr
  intro dy _
  apply List.map_congr_left
  intro dx _
  omega

/-- `process_cells` with a never-stopping visitor visits exactly the
clamped window around the initial cell, with half-width
`floor(rad / TERRAIN_SIZE) + 1` — the saturating `as usize` cast floors. -/
lemma processCells_true {σ : Type} (ic : Nat) (pos : Vec3) (rad : ℚ)
    (cond : σ → Nat → σ × Bool) (s : σ)
    (htrue : ∀ st n, (cond st n).2 = true) :
    (processCells ic pos rad cond s).2 =
      windowList (ic % TERRAIN_WIDTH - ((⌊rad / TERRAIN_SIZE⌋).toNat + 1))
        (min (ic % TERRAIN_WIDTH + ((⌊rad / TERRAIN_SIZE⌋).toNat + 1)) (TERRAIN_WIDTH - 1))
        (ic / TERRAIN_WIDTH - ((⌊rad / TERRAIN_SIZE⌋).toNat + 1))
        (min (ic / TERRAIN_WIDTH + ((⌊rad / TERRAIN_SIZE⌋).toNat + 1)) (TERRAIN_DEPTH - 1)) := by
  simp only [processCells, TERRAIN_WIDTH, TERRAIN_DEPTH]
  rw [processRows_true cond htrue]
  exact window_trace _ _ _ _ (by omega) (by omega)

/-- `process_cells` with an always-stopping visitor still visits one cell
per window row: `break` only leaves the inner loop. -/
lemma processCells_false {τ : Type} (ic : Nat) (pos : Vec3) (rad : ℚ)
    (condF : τ → Nat → τ × Bool) (t : τ)
    (hfalse : ∀ st n, (condF st n).2 = false) :
    (processCells ic pos rad condF t).2.length =
      min (ic / TERRAIN_WIDTH + ((⌊rad / TERRAIN_SIZE⌋).toNat + 1)) (TERRAIN_DEPTH - 1) + 1
        - (ic / TERRAIN_WIDTH - ((⌊rad / TERRAIN_SIZE⌋).toNat + 1)) := by
  simp only [processCells, TERRAIN_WIDTH, TERRAIN_DEPTH]
  rw [processRows_false condF hfalse]; omega

/-- **C3, amended.**  For every initial cell inside the 256×256 grid, every
position, and every radius `rad ≥ 0`, `process_cells` invokes the visitor on
exactly the cells of the square window around the initial cell's grid
coordinates with half-width `floor(rad / CELL_SIZE) + 1` (floor, not ceil:
the `as usize` cast truncates), clamped to the grid bounds, in row-major
order, each cell exactly once, and never with an out-of-bounds cell index;
but a visitor returning false only stops the remainder of the current row —
the scan still visits the first cell of every window row (the `break` exits
the inner x-loop only), with the surviving per-row cells at indices shifted
by the unreduced `next_y_delta`. -/
theorem c3_process_cells_window {σ τ : Type} (ic : Nat) (pos : Vec3) (rad : ℚ)
    (cond : σ → Nat → σ × Bool) (s : σ) (condF : τ → Nat → τ × Bool) (t : τ)
    (hic : ic < TERRAIN_WIDTH * TERRAIN_DEPTH) (hrad : 0 ≤ rad)
    (htrue : ∀ st n, (cond st n).2 = true)
    (hfalse : ∀ st n, (condF st n).2 = false) :
    (processCells ic pos rad cond s).2 =
      windowList (ic % TERRAIN_WIDTH - ((⌊rad / TERRAIN_SIZE⌋).toNat + 1))
        (min (ic % TERRAIN_WIDTH + ((⌊rad / TERRAIN_SIZE⌋).toNat + 1)) (TERRAIN_WIDTH - 1))
        (ic / TERRAIN_WIDTH - ((⌊rad / TERRAIN_SIZE⌋).toNat + 1))
        (min (ic / TERRAIN_WIDTH + ((⌊rad / TERRAIN_SIZE⌋).toNat + 1)) (TERRAIN_DEPTH - 1)) ∧
    (processCells ic pos rad cond s).2.Nodup ∧
    (∀ c ∈ (processCells ic pos rad cond s).2, c < TERRAIN_WIDTH * TERRAIN_DEPTH) ∧
    (processCells ic pos rad condF t).2.length =
      min (ic / TERRAIN_WIDTH + ((⌊rad / TERRAIN_SIZE⌋).toNat + 1)) (TERRAIN_DEPTH - 1) + 1
        - (ic / TERRAIN_WIDTH - ((⌊rad / TERRAIN_SIZE⌋).toNat + 1)) := by
  refine ⟨processCells_true ic pos rad cond s htrue, ?_, ?_, processCells_false ic pos rad condF t hfalse⟩
  · rw [processCells_true ic pos rad cond s htrue]
    exact windowList_nodup _ _ _ _ (by simp only [TERRAIN_WIDTH]; omega)
  · rw [processCells_true ic pos rad cond s htrue]
    intro c hc
    have h := windowList_bounds _ _ _ _ (by simp only [TERRAIN_WIDTH]; omega)
      (by simp only [TERRAIN_WIDTH, TERRAIN_DEPTH]; omega) c hc
    simp only [TERRAIN_WIDTH, TERRAIN_DEPTH]
    omega

/-- **C3, counterexample.**  Initial cell 2570 (row 10, column 10), radius
17: the claimed window half-width `ceil(17 / 16) + 1 = 3` would make a 7×7 =
49-cell window, but the code (flooring cast) visits only 5×5 = 25 cells; and
with a visitor that always returns false the code still visits 5 cells (one
per window row), not just 1, refuting "no further cells are visited at
all". -/
theorem c3_counterexample :
    (2 * ((⌈(17 : ℚ) / TERRAIN_SIZE⌉).toNat + 1) + 1) ^ 2 = 49 ∧
    (processCells 2570 vecZero 17 (fun (_ : Unit) _ => ((), true)) ()).2.length = 25 ∧
    (processCells 2570 vecZero 17 (fun (_ : Unit) _ => ((), false)) ()).2.length = 5 := by
  have hfl : (⌊(17 : ℚ) / TERRAIN_SIZE⌋ : ℤ) = 1 := by
    rw [TERRAIN_SIZE]
    norm_num [Int.floor_eq_iff]
  have hcl : (⌈(17 : ℚ) / TERRAIN_SIZE⌉ : ℤ) = 2 := by
    rw [TERRAIN_SIZE]
    norm_num [Int.ceil_eq_iff]
  refine ⟨by rw [hcl]; decide, ?_, ?_⟩
  · rw [processCells_true 2570 vecZero 17 _ () (fun _ _ => rfl), hfl]
    decide
  · rw [processCells_false 2570 vecZero 17 _ () (fun _ _ => rfl), hfl]
    decide

/-- **C3, witness**: the amended theorem applied at initial cell 2570,
radius 17, with the trivial always-true and always-false visitors on the
unit state. -/
theorem c3_witness :
    ((2570 : Nat) < TERRAIN_WIDTH * TERRAIN_DEPTH ∧ (0 : ℚ) ≤ 17 ∧
      (∀ (st : Unit) (n : Nat), ((fun (_ : Unit) _ => ((), true)) st n).2 = true) ∧
      (∀ (st : Unit) (n : Nat), ((fun (_ : Unit) _ => ((), false)) st n).2 = false)) ∧
    ((processCells 2570 vecZero 17 (fun (_ : Unit) _ => ((), true)) ()).2 =
      windowList (2570 % TERRAIN_WIDTH - ((⌊(17 : ℚ) / TERRAIN_SIZE⌋).toNat + 1))
        (min (2570 % TERRAIN_WIDTH + ((⌊(17 : ℚ) / TERRAIN_SIZE⌋).toNat + 1)) (TERRAIN_WIDTH - 1))
        (2570 / TERRAIN_WIDTH - ((⌊(17 : ℚ) / TERRAIN_SIZE⌋).toNat + 1))
        (min (2570 / TERRAIN_WIDTH + ((⌊(17 : ℚ) / TERRAIN_SIZE⌋).toNat + 1)) (TERRAIN_DEPTH - 1)) ∧
    (processCells 2570 vecZero 17 (fun (_ : Unit) _ => ((), true)) ()).2.Nodup ∧
    (∀ c ∈ (processCells 2570 vecZero 17 (fun (_ : Unit) _ => ((), true)) ()).2,
      c < TERRAIN_WIDTH * TERRAIN_DEPTH) ∧
    (processCells 2570 vecZero 17 (fun (_ : Unit) _ => ((), false)) ()).2.length =
      min (2570 / TERRAIN_WIDTH + ((⌊(17 : ℚ) / TERRAIN_SIZE⌋).toNat + 1)) (TERRAIN_DEPTH - 1) + 1
        - (2570 / TERRAIN_WIDTH - ((⌊(17 : ℚ) / TERRAIN_SIZE⌋).toNat + 1))) :=
  ⟨⟨by decide, by norm_num, fun _ _ => rfl, fun _ _ => rfl⟩,
   c3_process_cells_window 2570 vecZero 17 (fun (_ : Unit) _ => ((), true)) ()
     (fun (_ : Unit) _ => ((), false)) () (by decide) (by norm_num)
     (fun _ _ => rfl) (fun _ _ => rfl)⟩


end Flare
